import Mathlib

/-!
# Verification of the memory-landscape data-to-geometry synthesis pipeline

Shallow embedding of the repository's synthesis core:

* `featureMapping.ts` — two revisions of the feature-mapping pipeline
  (`FeatureMapping` for the revision defining `mapJourneyToFeatures` at
  lines 187–334, `FeatureMappingV2` for the revision at lines 425–507) and
  the `Simplexish` noise primitive with `TerrainEngine.heightAt`,
* `pointCloudSphere.ts` — the point-cloud variant (`PointCloudSphere`),
* `schema.ts` — the semantic data model (`JourneyData` etc.).

Modelling conventions: JavaScript numbers are idealized as real numbers
(`ℝ`); where the source works on hash lattices we use exact `ℤ`/`ℚ`
arithmetic (the JS float64 rounding of large integer products inside the
hash, and of decimal literals, is idealized as exact).  JS bitwise
operators (which coerce to 32-bit integers) are modelled exactly on `ℤ`.
The ambient effects available to the code (the wall clock read by
`new Date()` and the `Math.random()` stream) are made explicit as an
`Env` value threaded to the entry points, so that (in)dependence on them
is a provable statement rather than an artifact of the embedding.
NaN-producing float behavior, which `ℝ` cannot represent, is modelled
where a claim needs it by the small `JSVal` type below.
-/

/-! ## JS numeric helpers -/

/-- JS `Math.min(1, Math.max(0, v))` (`clamp01` in `featureMapping.ts`). -/
noncomputable def clamp01 (v : ℝ) : ℝ := min 1 (max 0 v)

/-- `THREE.MathUtils.clamp(value, lo, hi) = Math.max(lo, Math.min(hi, value))`. -/
noncomputable def clampR (v lo hi : ℝ) : ℝ := max lo (min hi v)

/-- `THREE.MathUtils.lerp(x, y, t) = x + (y - x) * t`. -/
noncomputable def lerpR (x y t : ℝ) : ℝ := x + (y - x) * t

/-- `remap` of `featureMapping.ts` lines 53–59:
`outMin + clamp01((v - inMin) / (inMax - inMin || 1)) * (outMax - outMin)`.
The JS `x || 1` guard substitutes `1` for a zero denominator. -/
noncomputable def remap (v inMin inMax outMin outMax : ℝ) : ℝ :=
  outMin +
    clamp01 ((v - inMin) / (if inMax - inMin = 0 then 1 else inMax - inMin)) *
      (outMax - outMin)

/-- A JS number that may be non-finite: used to model the unguarded
division in the second revision's `remap` (lines 372–378), where
`(v - inMin) / (inMax - inMin)` can produce `NaN` or `±Infinity`. -/
inductive JSVal : Type
  | num (r : ℝ)
  | nan
  | inf
  | ninf

/-- JS division of two finite numbers: `0/0 = NaN`, `x/0 = ±Infinity`. -/
noncomputable def jsDiv (a b : ℝ) : JSVal :=
  if b = 0 then
    (if a = 0 then JSVal.nan else if 0 < a then JSVal.inf else JSVal.ninf)
  else JSVal.num (a / b)

/-- `Math.max(0, Math.min(1, v))` on a possibly non-finite value:
`min`/`max` propagate NaN; `min(1, +inf) = 1`; `max(0, -inf) = 0`. -/
noncomputable def jsClamp01 : JSVal → JSVal
  | JSVal.num r => JSVal.num (max 0 (min 1 r))
  | JSVal.nan => JSVal.nan
  | JSVal.inf => JSVal.num 1
  | JSVal.ninf => JSVal.num 0

/-- `remap` of the second revision (`featureMapping.ts` lines 372–378),
with JS float semantics for the unguarded division:
`outMin + clamp01((v - inMin) / (inMax - inMin)) * (outMax - outMin)`. -/
noncomputable def remapJS (v inMin inMax outMin outMax : ℝ) : JSVal :=
  match jsClamp01 (jsDiv (v - inMin) (inMax - inMin)) with
  | JSVal.num c => JSVal.num (outMin + c * (outMax - outMin))
  | x => x

/-! ## 32-bit integer operations (JS bitwise semantics, exact on `ℤ`) -/

/-- JS `ToUint32`. -/
def toU32 (n : ℤ) : ℤ := n % (2 ^ 32)

/-- JS `ToInt32`. -/
def toI32 (n : ℤ) : ℤ :=
  let m := n % (2 ^ 32)
  if m < 2 ^ 31 then m else m - 2 ^ 32

/-- JS `a ^ b` (bitwise xor; operands coerced with `ToInt32`, result is a
signed 32-bit integer). -/
def jsXor (a b : ℤ) : ℤ := toI32 (Int.ofNat (Nat.xor (toU32 a).toNat (toU32 b).toNat))

/-- JS `a >>> k` (unsigned right shift: `ToUint32(a) >> k`). -/
def jsShru (a : ℤ) (k : ℕ) : ℤ := (toU32 a).toNat >>> k

/-! ## `Simplexish` noise (`featureMapping.ts` lines 512–560)

The hash works on integer lattice coordinates with 32-bit mixing, so it is
exact on `ℤ`; `noise`/`fractal` interpolate rationally, so they are exact
on `ℚ` (the decimal constants `0.48` etc. are the corresponding rationals).
The one idealization: the JS product `(h ^ (h >>> 13)) * 1274126177` is a
float64 that can exceed 2^53 and be rounded; we model it as exact. -/

namespace Simplexish

/-- `hash(x, y)`: `((x*374761393 + y*668265263) ^ seed)` mixed by
`(h ^ (h >>> 13)) * 1274126177` and finished by `(h ^ (h >>> 16)) >>> 0`. -/
def hash (seed x y : ℤ) : ℤ :=
  let h0 := jsXor (x * 374761393 + y * 668265263) seed
  let h1 := jsXor h0 (jsShru h0 13) * 1274126177
  toU32 (jsXor h1 (jsShru h1 16))

/-- `rand(x, y) = (hash(Math.floor(x), Math.floor(y)) % 10000) / 10000`. -/
def rand (seed : ℤ) (x y : ℚ) : ℚ := ((hash seed ⌊x⌋ ⌊y⌋ % 10000 : ℤ) : ℚ) / 10000

/-- `noise(x, y, f)`: smoothstep-weighted bilinear interpolation of `rand`
at the four lattice corners of `(x*f, y*f)`. -/
def noise (seed : ℤ) (x y f : ℚ) : ℚ :=
  let xi : ℤ := ⌊x * f⌋
  let yi : ℤ := ⌊y * f⌋
  let xf : ℚ := x * f - xi
  let yf : ℚ := y * f - yi
  let r00 := rand seed xi yi
  let r10 := rand seed (xi + 1) yi
  let r01 := rand seed xi (yi + 1)
  let r11 := rand seed (xi + 1) (yi + 1)
  let ux := xf * xf * (3 - 2 * xf)
  let uy := yf * yf * (3 - 2 * yf)
  let x1 := r00 * (1 - ux) + r10 * ux
  let x2 := r01 * (1 - ux) + r11 * ux
  x1 * (1 - uy) + x2 * uy

/-- The summation loop of `fractal`, returning `(sum, norm)` after
`octaves` iterations starting from amplitude `amp` and frequency `freq`
(`amp *= gain; freq *= lacunarity` per layer). -/
def fractalLoop (seed : ℤ) (x y lac gain : ℚ) : ℕ → ℚ → ℚ → ℚ × ℚ
  | 0, _, _ => (0, 0)
  | n + 1, amp, freq =>
    let rest := fractalLoop seed x y lac gain n (amp * gain) (freq * lac)
    (noise seed x y freq * amp + rest.1, amp + rest.2)

/-- `fractal(x, y, octaves, lacunarity, gain, baseFreq)`:
octave sum normalized by `Math.max(norm, 1e-6)`. -/
def fractal (seed : ℤ) (x y : ℚ) (octaves : ℕ) (lac gain baseFreq : ℚ) : ℚ :=
  let sn := fractalLoop seed x y lac gain octaves 1 baseFreq
  sn.1 / max sn.2 (1 / 1000000)

end Simplexish

/-! ## Ambient environment

JS code can read the wall clock (`new Date()`) and the PRNG
(`Math.random()`).  We make both explicit so that statements of purity /
determinism are about dependence on this value. `rand k` is the value of
the `k`-th `Math.random()` call (each call draws from `[0,1)`). -/

structure Env where
  nowMs : ℤ
  rand : ℕ → ℝ

/-- `new Date(ms).getUTCFullYear()` for a finite millisecond timestamp:
floor to days since epoch, then the proleptic-Gregorian civil year. -/
def dateYear (ms : ℤ) : ℤ :=
  let days := Int.fdiv ms 86400000
  let z := days + 719468
  let era := Int.fdiv z 146097
  let doe := z - era * 146097
  let yoe := Int.fdiv (doe - Int.fdiv doe 1460 + Int.fdiv doe 36524 - Int.fdiv doe 146096) 365
  let y := yoe + era * 400
  let doy := doe - (365 * yoe + Int.fdiv yoe 4 - Int.fdiv yoe 100)
  let mp := Int.fdiv (5 * doy + 2) 153
  let m := mp + (if mp < 10 then 3 else -9)
  y + (if m ≤ 2 then 1 else 0)

/-- JS division truncated toward zero, as applied by `new Date(t)`
(`TimeClip` / `ToIntegerOrInfinity`) to the possibly half-integral
`(start + end) / 2`. -/
def truncHalf (n : ℤ) : ℤ := if 0 ≤ n then Int.fdiv n 2 else -Int.fdiv (-n) 2

/-! ## Semantic data model (`schema.ts`)

Strings holding ISO dates are modelled by their parsed UTC millisecond
timestamps (`new Date(isoString).getTime()` is an injective, deterministic
function of the string for the `YYYY-MM-DD` data used here).  Signal
fields authored as decimal literals are modelled as the exact rationals.
`isVisit?: boolean` is modelled as `Bool` (an absent field behaves as
`false` in every use site, which are all truthiness tests). -/

inductive MemoryType where
  | origin | family | childhood | education | work | present | transition | visit
  deriving DecidableEq

inductive DocKind where
  | photo | document | letter | receipt
  deriving DecidableEq

inductive LangTag where
  | zh | en | mixed
  deriving DecidableEq

structure Period where
  start : ℤ
  end_ : Option ℤ

structure MemoryDocument where
  type : DocKind
  content : String
  date : String
  sentiment : Option ℚ
  language : Option LangTag

structure MemoryLocation where
  id : String
  name : String
  nameCn : Option String
  period : Option Period
  year : Option ℤ
  type : MemoryType
  intensity : ℚ
  valence : ℚ
  languageBalance : ℚ
  significance : ℚ
  duration : Option ℚ
  isVisit : Bool
  color : String
  notes : Option String
  memories : List MemoryDocument

structure MemoryConnection where
  from_ : String
  to_ : String
  year : Option ℤ
  weight : Option ℚ

structure JourneyData where
  locations : List MemoryLocation
  connections : List MemoryConnection

/-! ## THREE.js vector and color operations used by the pipeline -/

structure Vec3 where
  x : ℝ
  y : ℝ
  z : ℝ

structure Color3 where
  r : ℝ
  g : ℝ
  b : ℝ

namespace Color3

/-- `Color.lerp(c2, alpha)` / `Color.lerpColors`: per-channel
`c + (c2 - c) * alpha`. -/
noncomputable def lerp (c c2 : Color3) (alpha : ℝ) : Color3 :=
  ⟨c.r + (c2.r - c.r) * alpha, c.g + (c2.g - c.g) * alpha, c.b + (c2.b - c.b) * alpha⟩

/-- `Color.multiply`: componentwise product. -/
noncomputable def multiply (c c2 : Color3) : Color3 :=
  ⟨c.r * c2.r, c.g * c2.g, c.b * c2.b⟩

/-- `hue2rgb(p, q, t)` from three.js `setHSL`. -/
noncomputable def hue2rgb (p q t0 : ℝ) : ℝ :=
  let t1 := if t0 < 0 then t0 + 1 else t0
  let t := if 1 < t1 then t1 - 1 else t1
  if t < 1 / 6 then p + (q - p) * 6 * t
  else if t < 1 / 2 then q
  else if t < 2 / 3 then p + (q - p) * 6 * (2 / 3 - t)
  else p

/-- three.js `Color.getHSL` (hue, saturation, lightness of an RGB color). -/
noncomputable def getHSL (c : Color3) : ℝ × ℝ × ℝ :=
  let mx := max c.r (max c.g c.b)
  let mn := min c.r (min c.g c.b)
  let lightness := (mn + mx) / 2
  if mn = mx then (0, 0, lightness)
  else
    let delta := mx - mn
    let s := if lightness ≤ 1 / 2 then delta / (mx + mn) else delta / (2 - mx - mn)
    let h :=
      if mx = c.r then (c.g - c.b) / delta + (if c.g < c.b then 6 else 0)
      else if mx = c.g then (c.b - c.r) / delta + 2
      else (c.r - c.g) / delta + 4
    (h / 6, s, lightness)

/-- three.js `Color.setHSL`: `h` wrapped by `euclideanModulo(h, 1)`
(i.e. the fractional part), `s`/`l` clamped to `[0,1]`. -/
noncomputable def setHSL (h0 s0 l0 : ℝ) : Color3 :=
  let h := Int.fract h0
  let s := clampR s0 0 1
  let l := clampR l0 0 1
  if s = 0 then ⟨l, l, l⟩
  else
    let p := if l ≤ 1 / 2 then l * (1 + s) else l + s - l * s
    let q := 2 * l - p
    ⟨hue2rgb q p (h + 1 / 3), hue2rgb q p h, hue2rgb q p (h - 1 / 3)⟩

/-- three.js `Color.offsetHSL(dh, ds, dl)`. -/
noncomputable def offsetHSL (c : Color3) (dh ds dl : ℝ) : Color3 :=
  let hsl := getHSL c
  setHSL (hsl.1 + dh) (hsl.2.1 + ds) (hsl.2.2 + dl)

end Color3

/-- Value of one hex digit character (0 for anything else). -/
def hexDigit (c : Char) : ℕ :=
  if '0' ≤ c ∧ c ≤ '9' then c.toNat - '0'.toNat
  else if 'a' ≤ c ∧ c ≤ 'f' then 10 + c.toNat - 'a'.toNat
  else if 'A' ≤ c ∧ c ≤ 'F' then 10 + c.toNat - 'A'.toNat
  else 0

/-- `new THREE.Color(style)` for the `#rrggbb` hex styles used by the
dataset (other CSS styles are not exercised; the fallback keeps THREE's
default white). -/
noncomputable def hexToColor (s : String) : Color3 :=
  match s.toList with
  | '#' :: r1 :: r2 :: g1 :: g2 :: b1 :: b2 :: [] =>
    ⟨((hexDigit r1 * 16 + hexDigit r2 : ℕ) : ℝ) / 255,
     ((hexDigit g1 * 16 + hexDigit g2 : ℕ) : ℝ) / 255,
     ((hexDigit b1 * 16 + hexDigit b2 : ℕ) : ℝ) / 255⟩
  | _ => ⟨1, 1, 1⟩

/-! ## Feature Mapping Pipeline, current revision
(`featureMapping.ts` lines 9–334) -/

namespace FeatureMapping

structure MappedLocation where
  id : String
  pos : Vec3
  baseColor : Color3
  labelOpacity : ℝ
  haloOpacity : ℝ
  labelScale : ℝ
  elevationBias : ℝ
  amplitude : ℝ
  roughness : ℝ
  erosion : ℝ
  ridgeFactor : ℝ
  isVisit : Bool
  parentLocationId : Option String
  memoryType : Option DocKind
  memoryIndex : Option ℕ
  memoryCount : Option ℕ

/-- `MappedConnection` (`from`/`to` are keywords in Lean, hence `from_`/`to_`). -/
structure MappedConnection where
  from_ : MappedLocation
  to_ : MappedLocation
  weight : ℝ
  curvatureY : ℝ
  color : Color3
  opacity : ℝ

structure GlobalFeatures where
  chromaShift : ℝ → Color3
  exaggeration : ℝ

structure FeatureBundle where
  mapped : List MappedLocation
  mappedConnections : List MappedConnection
  global : GlobalFeatures

/-- `midpointYear` (lines 61–70).  For a present period the source takes
`start ? new Date(start).getTime() : new Date().getTime()`; `Period.start`
is required by the schema, so the wall-clock fallback (`env.nowMs`) is
unreachable and the parsed timestamp is always used; a missing `end`
falls back to `start`.  Without a period: `l.year ?? 0`. -/
def midpointYear (env : Env) (l : MemoryLocation) : ℤ :=
  match l.period with
  | some p =>
    let startMs : ℤ := p.start
    let endMs : ℤ := (p.end_).getD startMs
    dateYear (truncHalf (startMs + endMs))
  | none => l.year.getD 0

/-- `Math.min(...years)` over a nonempty spread. -/
def listMin : List ℤ → ℤ
  | [] => 0
  | y :: ys => ys.foldl min y

/-- `Math.max(...years)` over a nonempty spread. -/
def listMax : List ℤ → ℤ
  | [] => 0
  | y :: ys => ys.foldl max y

/-- `positionFromData` (lines 74–116): x from `languageBalance`, z from
the time spiral, both with deterministic per-index trigonometric jitter.
Returns the insertion-ordered `(id, position)` pairs of the `Map`. -/
noncomputable def positionFromData (env : Env) (locs : List MemoryLocation) :
    List (String × Vec3) :=
  let years := (locs.map (midpointYear env)).filter (fun y => decide (0 < y))
  let minYear : ℤ := if years.isEmpty then 2000 else listMin years
  let maxYear : ℤ := if years.isEmpty then 2025 else listMax years
  let yearSpan : ℤ := max 1 (maxYear - minYear)
  let timeSpiral : ℝ → Vec3 := fun year =>
    let t := (year - (minYear : ℝ)) / (yearSpan : ℝ)
    let angle := t * Real.pi * 3.5
    let radius := remap t 0 1 60 180
    ⟨Real.cos angle * radius, 0, Real.sin angle * radius⟩
  locs.enum.map fun ⟨idx, loc⟩ =>
    let lang := clamp01 (((loc.languageBalance : ℝ) + 1) / 2)
    let xLang := remap lang 0 1 (-150) 150
    -- `midpointYear(loc) || (minYear + maxYear) / 2` (`0` is falsy)
    let my := midpointYear env loc
    let year : ℝ := if my = 0 then ((minYear : ℝ) + (maxYear : ℝ)) / 2 else (my : ℝ)
    let tPos := timeSpiral year
    let x := xLang * 0.7 + tPos.x * 0.3
    let z := tPos.z
    let jitter : ℝ := 10
    let jx := (Real.sin ((idx : ℝ) * 12.917) * 0.5 + (if loc.isVisit then 0.25 else 0)) * jitter
    let jz := Real.cos ((idx : ℝ) * 9.731) * 0.5 * jitter
    (loc.id, (⟨x + jx, 0, z + jz⟩ : Vec3))

/-- `baseLayout.get(id)!`: a JS `Map` keeps the value of the latest `set`
for a key; the non-null assertion is sound because every looked-up id was
inserted, so the default is unreachable. -/
def layoutGet (layout : List (String × Vec3)) (id : String) : Vec3 :=
  (((layout.reverse).find? (fun e => e.1 == id)).map (fun e => e.2)).getD ⟨0, 0, 0⟩

structure TerrainCoeffs where
  elevationBias : ℝ
  amplitude : ℝ
  roughness : ℝ
  erosion : ℝ
  ridgeFactor : ℝ

/-- `terrainFromLocation` (lines 118–131). -/
noncomputable def terrainFromLocation (loc : MemoryLocation) : TerrainCoeffs :=
  let intensity := clamp01 (loc.intensity : ℝ)
  let valence := clampR (loc.valence : ℝ) (-1) 1
  let significance := clamp01 (loc.significance : ℝ)
  let durationYears : ℝ := ((loc.duration.getD 1 : ℚ) : ℝ)
  { elevationBias := significance * 18 + intensity * 14 + valence * 10
    amplitude := remap intensity 0 1 6 22
    roughness := remap durationYears 0 18 0.18 1.1
    erosion := remap (1 - significance) 0 1 0.12 0.9
    ridgeFactor := remap |valence| 0 1 0.05 0.95 }

structure DocMod where
  ampMul : ℝ
  roughMul : ℝ
  ridgeMul : ℝ
  biasAdd : ℝ
  colorTint : Color3

/-- `modFromDocument` (lines 133–183): per-document-kind modifier table. -/
noncomputable def modFromDocument : Option MemoryDocument → DocMod
  | none => ⟨0.9, 1.0, 1.0, 0, ⟨1, 1, 1⟩⟩
  | some doc =>
    let sentiment : ℝ := ((doc.sentiment.getD 0 : ℚ) : ℝ)
    let lang : ℝ :=
      match doc.language with
      | some LangTag.zh => -1
      | some LangTag.en => 1
      | _ => 0
    let m : ℝ × ℝ × ℝ × ℝ :=
      match doc.type with
      | DocKind.receipt => (0.85, 1.2, 1.0, sentiment * 3.5)
      | DocKind.photo => (1.25, 1.0, 1.15, sentiment * 6)
      | DocKind.letter => (1.15, 1.25, 1.0, sentiment * 5)
      | DocKind.document => (0.95, 0.85, 0.9, sentiment * 2.5)
    ⟨m.1, m.2.1, m.2.2.1, m.2.2.2,
      ⟨1 + sentiment * 0.22, 1 + sentiment * 0.12, 1 + lang * 0.12⟩⟩

/-- The hub node plus its orbiting memory-event children for one
location, in push order (`mapJourneyToFeatures` lines 198–289). -/
noncomputable def hubAndChildren (baseLayout : List (String × Vec3))
    (loc : MemoryLocation) : List MappedLocation :=
  let baseColor := hexToColor loc.color
  let pos := layoutGet baseLayout loc.id
  let tc := terrainFromLocation loc
  let labelOpacity := remap (loc.significance : ℝ) 0 1 0.35 1.0
  let haloOpacity := remap (loc.intensity : ℝ) 0 1 0.3 0.95
  let labelScale := remap (loc.significance : ℝ) 0 1 0.9 1.6
  let hub : MappedLocation :=
    { id := loc.id, pos := pos, baseColor := baseColor
      labelOpacity := labelOpacity, haloOpacity := haloOpacity, labelScale := labelScale
      elevationBias := tc.elevationBias, amplitude := tc.amplitude
      roughness := tc.roughness, erosion := tc.erosion, ridgeFactor := tc.ridgeFactor
      isVisit := loc.isVisit, parentLocationId := none
      memoryType := none, memoryIndex := none, memoryCount := none }
  let memories := loc.memories
  let ringRadius : ℝ := 8 + (loc.intensity : ℝ) * 8
  let children := memories.enum.map fun ⟨idx, doc⟩ =>
    let angle : ℝ :=
      ((idx : ℝ) / ((max 1 memories.length : ℕ) : ℝ)) * Real.pi * 2 +
        (loc.languageBalance : ℝ) * 0.5
    let offsetX := Real.cos angle * ringRadius
    let offsetZ := Real.sin angle * ringRadius
    let offsetY := (loc.valence : ℝ) * 2.5 + ((doc.sentiment.getD 0 : ℚ) : ℝ) * 3.5
    let childPos : Vec3 := ⟨pos.x + offsetX, pos.y + offsetY, pos.z + offsetZ⟩
    let md := modFromDocument (some doc)
    { id := loc.id ++ "::mem-" ++ toString idx
      pos := childPos
      baseColor := baseColor.multiply md.colorTint
      labelOpacity := labelOpacity * 0.9
      haloOpacity := haloOpacity * 1.05
      labelScale := labelScale * 0.85
      elevationBias := tc.elevationBias + md.biasAdd
      amplitude := tc.amplitude * md.ampMul
      roughness := clampR (tc.roughness * md.roughMul) 0.05 1.5
      erosion := tc.erosion
      ridgeFactor := clampR (tc.ridgeFactor * md.ridgeMul) 0.01 1.5
      isVisit := loc.isVisit
      parentLocationId := some loc.id
      memoryType := some doc.type
      memoryIndex := some idx
      memoryCount := some memories.length }
  hub :: children

/-- `mappedById.get` (lines 292–293): the `Map` is filled in `mapped`
order, so for duplicate ids the later `set` wins. -/
def mappedById (mapped : List MappedLocation) (id : String) : Option MappedLocation :=
  (mapped.reverse).find? (fun m => m.id == id)

/-- The per-connection body of lines 297–318: resolve both endpoints
(silently dropping the connection otherwise), default and clamp the
weight, remap curvature and opacity from it, blend the endpoint colors
50/50. -/
noncomputable def connFor (mapped : List MappedLocation) (conn : MemoryConnection) :
    Option MappedConnection :=
  match mappedById mapped conn.from_, mappedById mapped conn.to_ with
  | some fromBase, some toBase =>
    let weight := clamp01 ((conn.weight.getD (7/10) : ℚ) : ℝ)
    let curvatureY := remap weight 0 1 10 30
    let color := Color3.lerp fromBase.baseColor toBase.baseColor 0.5
    let baseOpacity := remap weight 0 1 0.25 0.85
    some { from_ := fromBase, to_ := toBase, weight := weight
           curvatureY := curvatureY, color := color, opacity := baseOpacity }
  | _, _ => none

/-- `mapJourneyToFeatures` (lines 187–334), current revision.
The locally computed `xs`/`minX`/`maxX`/`spanX` of lines 190–193 are dead
code (never read below) and are omitted. -/
noncomputable def mapJourneyToFeatures (env : Env) (data : JourneyData) : FeatureBundle :=
  let baseLayout := positionFromData env data.locations
  let mapped := data.locations.flatMap (hubAndChildren baseLayout)
  let mappedConnections := data.connections.filterMap (connFor mapped)
  let chromaShift : ℝ → Color3 := fun xNorm =>
    ⟨remap (1 - xNorm) 0 1 0.16 0.45,
     remap xNorm 0 1 0.07 0.22,
     remap xNorm 0 1 0.18 0.55⟩
  { mapped := mapped, mappedConnections := mappedConnections
    global := { chromaShift := chromaShift, exaggeration := 1.35 } }

end FeatureMapping

/-! ## Feature Mapping Pipeline, second revision
(`featureMapping.ts` lines 336–507) -/

namespace FeatureMappingV2

structure MappedLocation where
  id : String
  pos : Vec3
  baseColor : Color3
  labelOpacity : ℝ
  haloOpacity : ℝ
  labelScale : ℝ
  elevationBias : ℝ
  amplitude : ℝ
  roughness : ℝ
  erosion : ℝ
  ridgeFactor : ℝ
  isVisit : Bool

structure MappedConnection where
  from_ : MappedLocation
  to_ : MappedLocation
  weight : ℝ
  curvatureY : ℝ
  color : Color3
  opacity : ℝ

/-- This revision's `clamp01` (line 371): `Math.max(0, Math.min(1, v))`. -/
noncomputable def clamp01 (v : ℝ) : ℝ := max 0 (min 1 v)

/-- This revision's `remap` (lines 372–378) on finite inputs with a
nonzero input span; it has no `|| 1` guard, and its JS float behavior at
`inMax == inMin` is modelled by `remapJS` above (`ℝ` division by zero
yields `0`, which matches no JS value — every use below has a nonzero
constant span). -/
noncomputable def remap (v inMin inMax outMin outMax : ℝ) : ℝ :=
  outMin + clamp01 ((v - inMin) / (inMax - inMin)) * (outMax - outMin)

/-- `midpointYear` (lines 381–390): verbatim copy of the current
revision's, shared here. -/
def midpointYear (env : Env) (l : MemoryLocation) : ℤ :=
  FeatureMapping.midpointYear env l

/-- `positionFromData` (lines 396–423).  `Math.min(...years)` is
unguarded in this revision: for an empty `years` it is `Infinity` in JS,
which `ℝ` cannot represent — `listMin`/`listMax` then return `0`; no
stated property depends on a position computed from that degenerate case. -/
noncomputable def positionFromData (env : Env) (locs : List MemoryLocation) :
    List (String × Vec3) :=
  let years := (locs.map (midpointYear env)).filter (fun y => decide (0 < y))
  let minYear : ℤ := FeatureMapping.listMin years
  let maxYear : ℤ := FeatureMapping.listMax years
  let xBase : ℝ → ℝ := fun lb => remap lb (-1) 1 (-120) 120
  let spiral : ℝ → ℝ × ℝ := fun y =>
    let t := (y - (minYear : ℝ)) / ((max 1 (maxYear - minYear) : ℤ) : ℝ)
    let angle := t * Real.pi * 2.2
    let radius := remap t 0 1 20 120
    (angle, radius)
  locs.enum.map fun ⟨i, l⟩ =>
    -- `midpointYear(l) || minYear` (`0` is falsy)
    let my := midpointYear env l
    let mid : ℝ := if my = 0 then (minYear : ℝ) else (my : ℝ)
    let ar := spiral mid
    let x := xBase (l.languageBalance : ℝ) + Real.sin ((i : ℝ) * 2.17) * 8
    let z := Real.cos ar.1 * ar.2 + Real.cos ((i : ℝ) * 1.31) * 6
    (l.id, (⟨x, 0, z⟩ : Vec3))

structure GlobalFeatures where
  chromaShift : ℝ → Color3
  exaggeration : ℝ

structure FeatureBundle where
  mapped : List MappedLocation
  mappedConnections : List MappedConnection
  global : GlobalFeatures

/-- The hub node this revision maps one location to
(`mapJourneyToFeatures` lines 434–470); no children in this revision. -/
noncomputable def mapLocation (layout : List (String × Vec3))
    (loc : MemoryLocation) : MappedLocation :=
  let baseColor := hexToColor loc.color
  let elevationBias : ℝ :=
    (loc.significance : ℝ) * 18 + (loc.intensity : ℝ) * 14 + (loc.valence : ℝ) * 10
  let amplitude := remap (loc.intensity : ℝ) 0 1 6 26
  let roughness := remap |(loc.languageBalance : ℝ)| 0 1 0.35 0.08
  let erosion := remap ((loc.duration.getD (2/10) : ℚ) : ℝ) 0 3 0.15 0.85
  let ridgeFactor : ℝ :=
    if loc.type = MemoryType.origin then 0.9
    else if loc.type = MemoryType.visit then 0.4
    else remap (loc.intensity : ℝ) 0 1 0.3 0.85
  { id := loc.id
    pos := FeatureMapping.layoutGet layout loc.id
    baseColor := baseColor
    labelOpacity := remap (loc.significance : ℝ) 0 1 0.35 0.95
    haloOpacity := remap (loc.significance : ℝ) 0 1 0.025 0.1
    labelScale := remap (loc.significance : ℝ) 0 1 16 26
    elevationBias := elevationBias, amplitude := amplitude
    roughness := roughness, erosion := erosion, ridgeFactor := ridgeFactor
    isVisit := loc.isVisit }

/-- The `byId` map lookup of line 473 (later entries win). -/
def byId (mapped : List MappedLocation) (id : String) : Option MappedLocation :=
  (mapped.reverse).find? (fun m => m.id == id)

/-- The per-connection body of lines 476–491: resolve both endpoints
(dropping the connection otherwise); curvature from the clamped midpoint-
year gap scaled by `0.6 + weight`; colors blended 50/50. -/
noncomputable def connFor (env : Env) (locs : List MemoryLocation)
    (mapped : List MappedLocation) (c : MemoryConnection) : Option MappedConnection :=
  match byId mapped c.from_, byId mapped c.to_ with
  | some from_, some to_ =>
    let weight := clamp01 ((c.weight.getD (1/2) : ℚ) : ℝ)
    -- `midpointYear(data.locations.find((l) => l.id === c.from)!)`: the
    -- non-null assertion is sound whenever `byId` hit
    let yFrom : ℤ :=
      ((locs.find? (fun l => l.id == c.from_)).map (midpointYear env)).getD 0
    let yTo : ℤ :=
      ((locs.find? (fun l => l.id == c.to_)).map (midpointYear env)).getD 0
    let dt : ℝ := ((max 1 |yTo - yFrom| : ℤ) : ℝ)
    let curvatureY := remap dt 1 10 3 16 * (0.6 + weight)
    let color := Color3.lerp from_.baseColor to_.baseColor 0.5
    let opacity := remap weight 0 1 0.18 0.6
    some { from_ := from_, to_ := to_, weight := weight
           curvatureY := curvatureY, color := color, opacity := opacity }
  | _, _ => none

/-- `mapJourneyToFeatures` (lines 425–507), second revision.  The
locally computed `xs`/`minX`/`maxX` (lines 430–432) are dead code. -/
noncomputable def mapJourneyToFeatures (env : Env) (data : JourneyData) : FeatureBundle :=
  let layout := positionFromData env data.locations
  let mapped := data.locations.map (mapLocation layout)
  let mappedConnections := data.connections.filterMap (connFor env data.locations mapped)
  let chromaShift : ℝ → Color3 := fun xNorm =>
    ⟨remap (1 - xNorm) 0 1 0.12 0.4,
     remap xNorm 0 1 0.08 0.22,
     remap xNorm 0 1 0.18 0.5⟩
  { mapped := mapped, mappedConnections := mappedConnections
    global := { chromaShift := chromaShift, exaggeration := 1.35 } }

end FeatureMappingV2

/-! ## Height-Field variant: `TerrainEngine`
(`featureMapping.ts` lines 562–666)

`heightAt` is the per-vertex height synthesis; the engine's plane grid is
320×240 world units with 220×220 segments, so (after `rotateX(-π/2)`)
vertex `(ix, iy)` sits at `x = -160 + ix*(320/220)`,
`z = -120 + iy*(240/220)`. -/

namespace TerrainEngine

/-- World x-coordinate of grid column `ix` (0 ≤ ix ≤ 220). -/
def gridX (ix : ℕ) : ℚ := -160 + (320 / 220 : ℚ) * ix

/-- World z-coordinate of grid row `iy` (0 ≤ iy ≤ 220). -/
def gridZ (iy : ℕ) : ℚ := -120 + (240 / 220 : ℚ) * iy

/-- The body of `heightAt`'s per-location influence loop
(lines 588–615): accumulate amplitude-scaled shape, elevation bias, then
the order-sensitive erosion lerp — all only within the influence radius. -/
noncomputable def locStep (seed : ℤ) (x z : ℚ) (ex : ℝ) (base : ℚ)
    (h : ℝ) (m : FeatureMapping.MappedLocation) : ℝ :=
  let dx : ℝ := (x : ℝ) - m.pos.x
  let dz : ℝ := (z : ℝ) - m.pos.z
  let dist := Real.sqrt (dx ^ 2 + dz ^ 2)
  let R : ℝ := if m.isVisit then 28 else 46
  if dist < R then
    let t := 1 - dist / R
    let ridge : ℚ :=
      |Simplexish.fractal seed (x * (65 / 1000)) (z * (65 / 1000)) 3 2 (52 / 100) 1
          - 1 / 2| * 2 - 1 / 2
    let hill : ℝ := (base : ℝ) - 0.5
    let localShape := m.ridgeFactor * (ridge : ℝ) + (1 - m.ridgeFactor) * hill
    let fall := t ^ (2.2 : ℝ)
    let h1 := h + m.amplitude * localShape * 10 * fall * ex
    let h2 := h1 + m.elevationBias * 0.6 * fall * ex
    lerpR h2 (h2 * 0.7) (m.erosion * 0.4)
  else h

/-- `TerrainEngine.heightAt` (lines 580–620): base fractal relief, a
sequential fold of `locStep` over the mapped locations in bundle order,
then the positive-relief cliff curve `h^1.12`. -/
noncomputable def heightAt (seed : ℤ) (x z : ℚ)
    (f : FeatureMapping.FeatureBundle) : ℝ :=
  let ex := f.global.exaggeration
  let base : ℚ :=
    Simplexish.fractal seed (x * (18 / 1000)) (z * (18 / 1000)) 5 2 (48 / 100) 1
  let h0 : ℝ := ((base : ℝ) - 0.5) * 14 * ex
  let h := f.mapped.foldl (locStep seed x z ex base) h0
  if 0 < h then h ^ (1.12 : ℝ) else h

end TerrainEngine

/-! ## Point-Cloud variant: `PointCloudSphere` (`pointCloudSphere.ts`)

`Math.random()` calls are drawn from `env.rand` in call order: the base
layer consumes one draw per point (indices `0..44999`), the cluster layer
then consumes four draws per cluster point (jitter theta, jitter phi,
color lerp factor, size) starting at index `45000`. -/

namespace PointCloudSphere

/-- `baseRadius`. -/
def baseRadius : ℝ := 80

/-- `pointCount`. -/
def pointCount : ℕ := 45000

/-- `posToSpherical` (lines 25–35): planar layout wrapped onto the
sphere; `theta` from x over `[-120,120]`, `phi` in a pole-avoiding band
from z. -/
noncomputable def posToSpherical (pos : Vec3) : ℝ × ℝ :=
  (((pos.x + 120) / 240) * (Real.pi * 2),
   0.2 * Real.pi + ((pos.z + 120) / 240) * (Real.pi * 0.6))

/-- `sphericalToCartesian` (lines 37–43). -/
noncomputable def sphericalToCartesian (theta phi r : ℝ) : Vec3 :=
  ⟨r * Real.sin phi * Real.cos theta, r * Real.cos phi, r * Real.sin phi * Real.sin theta⟩

/-- `noise3` (lines 46–49): `s - Math.floor(s)` of a scaled sine. -/
noncomputable def noise3 (x y z : ℝ) : ℝ :=
  Int.fract (Real.sin (x * 12.9898 + y * 78.233 + z * 37.719))

/-- The five-octave loop of `fbm` (lines 52–62). -/
noncomputable def fbmLoop (x y z : ℝ) : ℕ → ℝ → ℝ → ℝ
  | 0, _, _ => 0
  | n + 1, amp, freq =>
    noise3 (x * freq) (y * freq) (z * freq) * amp + fbmLoop x y z n (amp * 0.54) (freq * 2.3)

/-- `fbm(x, y, z)`. -/
noncomputable def fbm (x y z : ℝ) : ℝ := fbmLoop x y z 5 0.5 1

structure SphericalFeature where
  mapped : FeatureMapping.MappedLocation
  theta : ℝ
  phi : ℝ
  weight : ℝ
  sign : ℝ

/-- `precomputeSphericalFeatures` (lines 64–93).  `MappedLocation` has no
`significance`/`valence` fields, so `(m as any).significance ?? 0.5` is
`0.5` and `Math.sign(bias || valence || 0) || 1` is the sign of
`elevationBias`, defaulting to `1` when the bias is zero. -/
noncomputable def precomputeSphericalFeatures (f : FeatureMapping.FeatureBundle) :
    List SphericalFeature :=
  f.mapped.map fun m =>
    let tp := posToSpherical m.pos
    let sig : ℝ := 0.5
    let weight := m.amplitude * 0.5 + sig * 16 + |m.ridgeFactor| * 10 + m.roughness * 8 + 12
    let sign : ℝ := if m.elevationBias = 0 then 1 else if 0 < m.elevationBias then 1 else -1
    ⟨m, tp.1, tp.2, weight, sign⟩

/-- One iteration of `sampleSilhouetteField`'s accumulation loop
(lines 108–126), over `(field, signedField, totalW)`: absolute angular
deltas, a single `0/2π` wrap of the theta delta, cubic falloff inside the
0.9-radian influence radius. -/
noncomputable def silhouetteAcc (theta phi : ℝ) (acc : ℝ × ℝ × ℝ)
    (sf : SphericalFeature) : ℝ × ℝ × ℝ :=
  let dTheta0 := |theta - sf.theta|
  let dPhi := |phi - sf.phi|
  let dTheta := if Real.pi < dTheta0 then 2 * Real.pi - dTheta0 else dTheta0
  let angDist := Real.sqrt (dTheta * dTheta + dPhi * dPhi)
  if angDist < 0.9 then
    let t := 1 - angDist / 0.9
    let falloff := t * t * t
    (acc.1 + sf.weight * falloff, acc.2.1 + sf.weight * sf.sign * falloff, acc.2.2 + sf.weight)
  else acc

/-- `sampleSilhouetteField` (lines 103–134): accumulate, short-circuit to
`(0,0)` when `totalW <= 0`, else normalize and clamp. -/
noncomputable def sampleSilhouetteField (sfs : List SphericalFeature) (theta phi : ℝ) :
    ℝ × ℝ :=
  let acc := sfs.foldl (silhouetteAcc theta phi) (0, 0, 0)
  if acc.2.2 ≤ 0 then (0, 0)
  else
    (clampR (acc.1 / (acc.2.2 * 0.45)) 0 2.0,
     clampR (acc.2.1 / (acc.2.2 * 0.45)) (-2.0) 2.0)

/-- Base-layer point `i` of `generate` (lines 138–184): Fibonacci-sphere
parameterization, silhouette bump, chroma color with altitude luminance. -/
noncomputable def basePoint (sfs : List SphericalFeature) (chroma : ℝ → Color3)
    (i : ℕ) : Vec3 × Color3 :=
  let y : ℝ := 1 - (2 * ((i : ℝ) + 0.5)) / (pointCount : ℝ)
  let r := Real.sqrt (1 - y * y)
  let theta := Real.pi * (3 - Real.sqrt 5) * (i : ℝ)
  let phi := Real.arccos y
  let fs := sampleSilhouetteField sfs theta phi
  let nMacro := fbm (theta * 0.18) (phi * 0.24) 4.7 - 0.5
  let nDetail := fbm (theta * 1.7) (phi * 1.3) 19.1 - 0.5
  let silhouetteBump := fs.1 * 26.0 + fs.2 * 12.0 + nMacro * 12.0 + nDetail * 4.0
  let radius := baseRadius + silhouetteBump
  let pos : Vec3 := ⟨radius * r * Real.cos theta, radius * y, radius * r * Real.sin theta⟩
  -- `(((theta / (2π)) % 1) + 1) % 1` is the (euclidean) fractional part
  let angleNorm := Int.fract (theta / (Real.pi * 2))
  let baseColor := chroma angleNorm
  let heightNorm := clampR ((radius - baseRadius) / 35.0) (-1) 1
  (pos, baseColor.offsetHSL 0 0 (heightNorm * 0.3))

/-- `clusterCount` for one feature (line 197):
`800 + Math.floor(amp*30 + sig*200 + ridge*150)` with `sig = 0.6`
(`m.significance` is absent). -/
noncomputable def clusterCount (sf : SphericalFeature) : ℕ :=
  (800 + ⌊sf.mapped.amplitude * 30 + (0.6 : ℝ) * 200 + |sf.mapped.ridgeFactor| * 150⌋).toNat

/-- Cluster point `i` of feature `idx` (lines 199–227); `c0` is the index
of this point's first `Math.random()` draw. -/
noncomputable def clusterPoint (env : Env) (sfs : List SphericalFeature)
    (idx : ℕ) (sf : SphericalFeature) (c0 i : ℕ) : Vec3 × Color3 × ℝ :=
  let k := c0 + 4 * i
  let jitterTheta := sf.theta + (env.rand k - 0.5) * 0.4
  let jitterPhi := sf.phi + (env.rand (k + 1) - 0.5) * 0.35
  let fs := sampleSilhouetteField sfs jitterTheta jitterPhi
  let localNoise :=
    fbm (jitterTheta * 2.4) (jitterPhi * 2.7) ((idx : ℝ) * 3.17 + (i : ℝ) * 0.013) - 0.5
  let sig : ℝ := 0.6
  let bump := fs.1 * 20.0 + fs.2 * 9.0 + localNoise * 8.0 + (sig - 0.5) * 12.0
  let radius := baseRadius + 6 + bump
  let pos : Vec3 :=
    ⟨radius * Real.sin jitterPhi * Real.cos jitterTheta,
     radius * Real.cos jitterPhi,
     radius * Real.sin jitterPhi * Real.sin jitterTheta⟩
  let highlight : Color3 := ⟨1.1, 0.95, 1.1⟩
  let t := 0.35 + sig * 0.45 + env.rand (k + 2) * 0.2
  let c := Color3.lerp sf.mapped.baseColor highlight t
  let sizeBoost := sig * 1.6 + sf.mapped.amplitude * 0.02
  (pos, c, 0.5 + env.rand (k + 3) * 1.6 + sizeBoost)

/-- The cluster layer (lines 191–228): per feature, `clusterCount` points
each consuming four `Math.random()` draws, with the draw counter threaded
across features starting after the base layer's `pointCount` draws. -/
noncomputable def clusterLayer (env : Env) (sfs : List SphericalFeature) :
    List (Vec3 × Color3 × ℝ) :=
  (sfs.enum.foldl
    (fun (acc : List (Vec3 × Color3 × ℝ) × ℕ) (p : ℕ × SphericalFeature) =>
      let pts := (List.range (clusterCount p.2)).map (clusterPoint env sfs p.1 p.2 acc.2)
      (acc.1 ++ pts, acc.2 + 4 * clusterCount p.2))
    ([], pointCount)).1

structure PCOutput where
  positions : List Vec3
  colors : List Color3
  sizes : List ℝ

/-- `PointCloudSphere.generate` (lines 95–253): base Fibonacci layer
followed by the per-location cluster layer, pushed into flat position /
color / size buffers. -/
noncomputable def generate (env : Env) (f : FeatureMapping.FeatureBundle) : PCOutput :=
  let sfs := precomputeSphericalFeatures f
  let basePts := (List.range pointCount).map (basePoint sfs f.global.chromaShift)
  let baseSizes := (List.range pointCount).map (fun i => 0.35 + env.rand i * 0.45)
  let cluster := clusterLayer env sfs
  { positions := basePts.map (fun p => p.1) ++ cluster.map (fun p => p.1)
    colors := basePts.map (fun p => p.2) ++ cluster.map (fun p => p.2.1)
    sizes := baseSizes ++ cluster.map (fun p => p.2.2) }

/-- The generated geometry's mutable state: the `position` attribute
array and the `userData.basePositions` copy kept for the jitter pass. -/
structure PointsGeom where
  arr : List Vec3
  basePositions : List Vec3

/-- Geometry as produced by `generate` (lines 230–240):
`userData.basePositions` is a fresh `Float32Array` copy of the positions
just written to the attribute. -/
noncomputable def generatePoints (env : Env) (f : FeatureMapping.FeatureBundle) :
    PointsGeom :=
  let out := generate env f
  ⟨out.positions, out.positions⟩

/-- `PointCloudSphere.update` (lines 270–303): every output position is
recomputed from the stored base position and the time argument (the
`!attr` / `!basePositions` guards cannot fire for geometry produced by
`generate`; the loop bound `arr.length/3` equals the base-copy length). -/
noncomputable def update (pointCloud : PointsGeom) (time : ℝ) : PointsGeom :=
  let t := time * 0.4
  let jitter : ℝ := 0.5
  { arr := pointCloud.basePositions.map fun b =>
      let n1 := noise3 (b.x * 0.02 + t) (b.y * 0.015) (b.z * 0.01)
      let n2 := noise3 (b.x * 0.01) (b.y * 0.02 + t * 1.2) (b.z * 0.015)
      ⟨b.x + (n1 - 0.5) * jitter,
       b.y + (n2 - 0.5) * jitter * 0.8,
       b.z + (n1 + n2 - 1.0) * jitter * 0.7⟩
    basePositions := pointCloud.basePositions }

end PointCloudSphere

/-! ## Concrete data used by the claim instances -/

/-- An environment whose `Math.random()` stream is constantly `0`. -/
noncomputable def envRand0 : Env := ⟨0, fun _ => 0⟩

/-- An environment whose `Math.random()` stream is constantly `1/2`. -/
noncomputable def envRandHalf : Env := ⟨0, fun _ => 1/2⟩

/-- A Feature Bundle with no mapped locations. -/
noncomputable def emptyBundle : FeatureMapping.FeatureBundle :=
  ⟨[], [], ⟨fun _ => ⟨0, 0, 0⟩, 1.35⟩⟩

/-- A concrete authored location with `intensity = 0.2`, used to witness
the C3 amplitude instance. -/
def c3Loc : MemoryLocation :=
  { id := "c3", name := "c3", nameCn := none, period := none, year := some 2001
    type := MemoryType.work, intensity := 1/5, valence := 0
    languageBalance := 0, significance := 1/2, duration := none
    isVisit := false, color := "#4169e1", notes := none, memories := [] }

/-- A mapped location at the origin with `amplitude 10`, `erosion 0`,
`ridgeFactor 0`: it adds a nonzero amplitude term and no erosion. -/
noncomputable def c5LocA : FeatureMapping.MappedLocation :=
  { id := "A", pos := ⟨0, 0, 0⟩, baseColor := ⟨1, 1, 1⟩
    labelOpacity := 1, haloOpacity := 1, labelScale := 1
    elevationBias := 0, amplitude := 10, roughness := 1/2, erosion := 0
    ridgeFactor := 0, isVisit := false, parentLocationId := none
    memoryType := none, memoryIndex := none, memoryCount := none }

/-- A mapped location at the origin with `amplitude 0`, `erosion 1`: it
adds nothing but applies the erosion lerp to the accumulated height. -/
noncomputable def c5LocB : FeatureMapping.MappedLocation :=
  { id := "B", pos := ⟨0, 0, 0⟩, baseColor := ⟨1, 1, 1⟩
    labelOpacity := 1, haloOpacity := 1, labelScale := 1
    elevationBias := 0, amplitude := 0, roughness := 1/2, erosion := 1
    ridgeFactor := 0, isVisit := false, parentLocationId := none
    memoryType := none, memoryIndex := none, memoryCount := none }

/-- A mapped location whose spherical angle is `(theta, phi) = (0, 0.2π)`
with silhouette weight `35`. -/
noncomputable def c10Loc : FeatureMapping.MappedLocation :=
  { id := "C", pos := ⟨-120, 0, -120⟩, baseColor := ⟨1, 1, 1⟩
    labelOpacity := 1, haloOpacity := 1, labelScale := 1
    elevationBias := 0, amplitude := 12, roughness := 1/2, erosion := 1/2
    ridgeFactor := 1/2, isVisit := false, parentLocationId := none
    memoryType := none, memoryIndex := none, memoryCount := none }

/-- Its one-location bundle. -/
noncomputable def c10Bundle : FeatureMapping.FeatureBundle :=
  ⟨[c10Loc], [], ⟨fun _ => ⟨0, 0, 0⟩, 1.35⟩⟩

/-- A memory document whose sentiment (`100`) is far outside the
documented `[-1, 1]` range. -/
def c8Doc : MemoryDocument :=
  ⟨DocKind.photo, "m", "2020-01-01", some 100, none⟩

/-- A location with all signals zero carrying the out-of-range document. -/
def c8Loc : MemoryLocation :=
  { id := "x", name := "X", nameCn := none, period := none, year := none
    type := MemoryType.work, intensity := 0, valence := 0, languageBalance := 0
    significance := 0, duration := none, isVisit := false, color := "#ffffff"
    notes := none, memories := [c8Doc] }

/-- Its dataset. -/
def c8Data : JourneyData := ⟨[c8Loc], []⟩

/-- Location "a" anchored at year 2000. -/
def c7LocA : MemoryLocation :=
  { id := "a", name := "A", nameCn := none, period := none, year := some 2000
    type := MemoryType.work, intensity := 1/2, valence := 0, languageBalance := 0
    significance := 1/2, duration := none, isVisit := false, color := "#ffffff"
    notes := none, memories := [] }

/-- Location "b" anchored at year 2010. -/
def c7LocB1 : MemoryLocation :=
  { id := "b", name := "B", nameCn := none, period := none, year := some 2010
    type := MemoryType.work, intensity := 1/2, valence := 0, languageBalance := 0
    significance := 1/2, duration := none, isVisit := false, color := "#ffffff"
    notes := none, memories := [] }

/-- Location "b" anchored at year 2004. -/
def c7LocB2 : MemoryLocation :=
  { id := "b", name := "B", nameCn := none, period := none, year := some 2004
    type := MemoryType.work, intensity := 1/2, valence := 0, languageBalance := 0
    significance := 1/2, duration := none, isVisit := false, color := "#ffffff"
    notes := none, memories := [] }

/-- A connection `"a" → "b"` with `weight` absent (so it is defaulted). -/
def c7Conn : MemoryConnection := ⟨"a", "b", none, none⟩

/-- Two datasets that differ only in location "b"'s anchor year. -/
def c7Data1 : JourneyData := ⟨[c7LocA, c7LocB1], [c7Conn]⟩

/-- See `c7Data1`. -/
def c7Data2 : JourneyData := ⟨[c7LocA, c7LocB2], [c7Conn]⟩

/-! ## Shared lemmas about the clamped remap helpers -/

lemma clamp01_swap (x : ℝ) : clamp01 x = max 0 (min 1 x) := by
  simp only [clamp01, min_def, max_def]
  split_ifs <;> linarith

lemma clamp01_nonneg (x : ℝ) : 0 ≤ clamp01 x :=
  le_min zero_le_one (le_max_left 0 x)

lemma clamp01_le_one (x : ℝ) : clamp01 x ≤ 1 := min_le_left 1 _

lemma clamp01_mono {x y : ℝ} (h : x ≤ y) : clamp01 x ≤ clamp01 y :=
  min_le_min le_rfl (max_le_max le_rfl h)

lemma clamp01_of_nonpos {x : ℝ} (h : x ≤ 0) : clamp01 x = 0 := by
  rw [clamp01, max_eq_left h]
  exact min_eq_right zero_le_one

lemma clamp01_of_one_le {x : ℝ} (h : 1 ≤ x) : clamp01 x = 1 := by
  rw [clamp01, max_eq_right (le_trans zero_le_one h)]
  exact min_eq_left h

lemma clampR_mem {lo hi : ℝ} (v : ℝ) (h : lo ≤ hi) :
    lo ≤ clampR v lo hi ∧ clampR v lo hi ≤ hi :=
  ⟨le_max_left lo _, max_le h (min_le_left hi v)⟩

lemma remap_mem {outMin outMax : ℝ} (v inMin inMax : ℝ) (h : outMin ≤ outMax) :
    outMin ≤ remap v inMin inMax outMin outMax ∧
      remap v inMin inMax outMin outMax ≤ outMax := by
  constructor
  · have := mul_nonneg (clamp01_nonneg ((v - inMin) / (if inMax - inMin = 0 then 1 else inMax - inMin))) (by linarith : (0:ℝ) ≤ outMax - outMin)
    rw [remap]; linarith
  · have hc1 := clamp01_le_one ((v - inMin) / (if inMax - inMin = 0 then 1 else inMax - inMin))
    have hc0 := clamp01_nonneg ((v - inMin) / (if inMax - inMin = 0 then 1 else inMax - inMin))
    have := mul_le_of_le_one_left (by linarith : (0:ℝ) ≤ outMax - outMin) hc1
    rw [remap]
    linarith

/-- **C1.** The current-revision mapping `mapJourneyToFeatures` is a pure
function of the `JourneyData` alone: its output does not depend on the
ambient environment (wall clock, `Math.random()` stream), so two
invocations on the same unchanged input produce identical Feature Bundles
— every `MappedLocation`, every `MappedConnection`, and the `chromaShift`
function's output at every argument.  (The only ambient read in the
source, `new Date().getTime()` in `midpointYear`, is in the fallback for
an absent `period.start`, which the schema makes unreachable; no
randomness is used — the jitter is deterministic trigonometry keyed by
array index.) -/
theorem mapJourneyToFeatures_pure (e₁ e₂ : Env) (d : JourneyData) :
    FeatureMapping.mapJourneyToFeatures e₁ d = FeatureMapping.mapJourneyToFeatures e₂ d ∧
    ∀ xNorm : ℝ,
      (FeatureMapping.mapJourneyToFeatures e₁ d).global.chromaShift xNorm =
        (FeatureMapping.mapJourneyToFeatures e₂ d).global.chromaShift xNorm :=
  ⟨rfl, fun _ => rfl⟩

/-- **C2 counterexample.** The second revision's `remap` (lines 371–378)
has no `inMax == inMin` guard: at the concrete input
`v = inMin = inMax = 0`, `outMin = 5`, `outMax = 9` it divides `0/0` and
returns `NaN` — not a finite number, refuting the claim's guard clause
for that cited definition. -/
theorem remapJS_zero_span_not_finite :
    ¬ ∃ r : ℝ, remapJS 0 0 0 5 9 = JSVal.num r := by
  rintro ⟨r, hr⟩
  simp [remapJS, jsDiv, jsClamp01] at hr

/-- **C2 (amended).** For `inMin < inMax`, `remap` is monotone in `v`
(non-decreasing when `outMin ≤ outMax`, non-increasing when the output
range is reversed), saturates to `outMin` for `v ≤ inMin` and to
`outMax` for `inMax ≤ v`; the guarded (current) `remap` yields the
well-defined finite value `outMin + clamp01(v - inMin)·(outMax - outMin)`
at `inMax = inMin` with no division by zero; and whenever
`inMax - inMin ≠ 0` the second revision's unguarded `remap` agrees with
the guarded one, its JS float semantics yielding the same finite number —
only the `inMax = inMin` behavior of the two revisions differs (the
second returns `NaN` there, see the counterexample). -/
theorem remap_monotone_clamped (v w inMin inMax outMin outMax : ℝ) :
    (inMin < inMax → v ≤ w →
      ((outMin ≤ outMax →
          remap v inMin inMax outMin outMax ≤ remap w inMin inMax outMin outMax) ∧
       (outMax ≤ outMin →
          remap w inMin inMax outMin outMax ≤ remap v inMin inMax outMin outMax))) ∧
    (inMin < inMax → v ≤ inMin → remap v inMin inMax outMin outMax = outMin) ∧
    (inMin < inMax → inMax ≤ v → remap v inMin inMax outMin outMax = outMax) ∧
    (remap v inMin inMin outMin outMax =
      outMin + clamp01 (v - inMin) * (outMax - outMin)) ∧
    (inMax - inMin ≠ 0 →
      remapJS v inMin inMax outMin outMax =
        JSVal.num (FeatureMappingV2.remap v inMin inMax outMin outMax)) ∧
    (inMax - inMin ≠ 0 →
      FeatureMappingV2.remap v inMin inMax outMin outMax =
        remap v inMin inMax outMin outMax) := by
  refine ⟨?_, ?_, ?_, ?_, ?_, ?_⟩
  · intro hin hvw
    have hspan : inMax - inMin ≠ 0 := sub_ne_zero.mpr (ne_of_gt hin)
    have hpos : (0:ℝ) < inMax - inMin := by linarith
    have hc : clamp01 ((v - inMin) / (inMax - inMin)) ≤
        clamp01 ((w - inMin) / (inMax - inMin)) :=
      clamp01_mono ((div_le_div_iff_of_pos_right hpos).mpr (by linarith))
    constructor
    · intro hout
      simp only [remap, if_neg hspan]
      have := mul_le_mul_of_nonneg_right hc (by linarith : (0:ℝ) ≤ outMax - outMin)
      linarith
    · intro hout
      simp only [remap, if_neg hspan]
      have := mul_le_mul_of_nonpos_right hc (by linarith : outMax - outMin ≤ 0)
      linarith
  · intro hin hv
    have hspan : inMax - inMin ≠ 0 := sub_ne_zero.mpr (ne_of_gt hin)
    have hpos : (0:ℝ) < inMax - inMin := by linarith
    have : (v - inMin) / (inMax - inMin) ≤ 0 :=
      div_nonpos_iff.mpr (Or.inr ⟨by linarith, le_of_lt hpos⟩)
    rw [remap, if_neg hspan, clamp01_of_nonpos this]
    ring
  · intro hin hv
    have hspan : inMax - inMin ≠ 0 := sub_ne_zero.mpr (ne_of_gt hin)
    have hpos : (0:ℝ) < inMax - inMin := by linarith
    have : (1:ℝ) ≤ (v - inMin) / (inMax - inMin) :=
      (one_le_div hpos).mpr (by linarith)
    rw [remap, if_neg hspan, clamp01_of_one_le this]
    ring
  · rw [remap, if_pos (sub_self inMin), div_one]
  · intro hspan
    rw [remapJS, jsDiv, if_neg hspan, jsClamp01, FeatureMappingV2.remap,
      FeatureMappingV2.clamp01]
  · intro hspan
    rw [FeatureMappingV2.remap, FeatureMappingV2.clamp01, remap, if_neg hspan,
      ← clamp01_swap]

/-- **C2 witness.** The amended theorem applied at the concrete instance
`remap(5, 0, 4, 10, 20)`: the input exceeds `inMax = 4`, so the result
saturates to `outMax = 20`. -/
theorem remap_monotone_clamped_witness :
    (0:ℝ) < 4 ∧ (4:ℝ) ≤ 5 ∧ remap 5 0 4 10 20 = 20 :=
  ⟨by norm_num, by norm_num,
    (remap_monotone_clamped 5 5 0 4 10 20).2.2.1 (by norm_num) (by norm_num)⟩

/-- **C3.** The hub terrain coefficients equal the documented formulas
over the clamped signals, for the implementation's configured constants:
`elevationBias = sig*18 + int*14 + val*10` (un-remapped signed sum),
`amplitude = remap(int, 0, 1, 6, 22)`,
`roughness = remap(duration ?? 1, 0, 18, 0.18, 1.1)`,
`erosion = remap(1 - sig, 0, 1, 0.12, 0.9)`,
`ridgeFactor = remap(|val|, 0, 1, 0.05, 0.95)`; in particular a location
with `intensity = 0.2` gets `amplitude = remap(0.2, 0, 1, 6, 22) = 9.2`. -/
theorem terrainFromLocation_formulas (loc : MemoryLocation) :
    (FeatureMapping.terrainFromLocation loc).elevationBias =
        clamp01 (loc.significance : ℝ) * 18 + clamp01 (loc.intensity : ℝ) * 14 +
          clampR (loc.valence : ℝ) (-1) 1 * 10 ∧
    (FeatureMapping.terrainFromLocation loc).amplitude =
        remap (clamp01 (loc.intensity : ℝ)) 0 1 6 22 ∧
    (FeatureMapping.terrainFromLocation loc).roughness =
        remap ((loc.duration.getD 1 : ℚ) : ℝ) 0 18 0.18 1.1 ∧
    (FeatureMapping.terrainFromLocation loc).erosion =
        remap (1 - clamp01 (loc.significance : ℝ)) 0 1 0.12 0.9 ∧
    (FeatureMapping.terrainFromLocation loc).ridgeFactor =
        remap |clampR (loc.valence : ℝ) (-1) 1| 0 1 0.05 0.95 ∧
    (loc.intensity = 1/5 →
      (FeatureMapping.terrainFromLocation loc).amplitude = 46/5) := by
  refine ⟨rfl, rfl, rfl, rfl, rfl, fun h => ?_⟩
  simp only [FeatureMapping.terrainFromLocation, h]
  norm_num [clamp01, remap, min_def, max_def]

/-- **C3 witness.** The formulas theorem applied at a concrete location
with `intensity = 0.2`: its amplitude is `9.2` over the configured
`[6, 22]` band. -/
theorem terrainFromLocation_formulas_witness :
    c3Loc.intensity = 1/5 ∧ (FeatureMapping.terrainFromLocation c3Loc).amplitude = 46/5 :=
  ⟨rfl, (terrainFromLocation_formulas c3Loc).2.2.2.2.2 rfl⟩

/-! ## Concrete evaluations of the `Simplexish` fractal -/

lemma fractalLoop_five (seed : ℤ) (x y lac gain amp freq : ℚ) :
    Simplexish.fractalLoop seed x y lac gain 5 amp freq =
      (Simplexish.noise seed x y freq * amp +
        (Simplexish.noise seed x y (freq * lac) * (amp * gain) +
          (Simplexish.noise seed x y (freq * lac * lac) * (amp * gain * gain) +
            (Simplexish.noise seed x y (freq * lac * lac * lac) * (amp * gain * gain * gain) +
              (Simplexish.noise seed x y (freq * lac * lac * lac * lac) *
                  (amp * gain * gain * gain * gain) + 0)))),
       amp + (amp * gain + (amp * gain * gain + (amp * gain * gain * gain +
         (amp * gain * gain * gain * gain + 0))))) := by
  simp [Simplexish.fractalLoop, mul_assoc]

lemma noiseC4f1 : Simplexish.noise 42 (-(72/25)) (54/125) 1 = 28631942559953/61035156250000 := by
  have h00 : Simplexish.hash 42 (-3) 0 = 1740717376 := by decide
  have h10 : Simplexish.hash 42 (-2) 0 = 2877605257 := by decide
  have h01 : Simplexish.hash 42 (-3) 1 = 3850000545 := by decide
  have h11 : Simplexish.hash 42 (-2) 1 = 53836146 := by decide
  have f1 : (⌊(-(72/25) : ℚ) * 1⌋ : ℤ) = -3 := by norm_num
  have f2 : (⌊(54/125 : ℚ) * 1⌋ : ℤ) = 0 := by norm_num
  simp only [Simplexish.noise, Simplexish.rand, f1, f2, Int.floor_intCast]
  push_cast
  norm_num [h00, h10, h01, h11]

lemma noiseC4f2 : Simplexish.noise 42 (-(72/25)) (54/125) 2 = 59659636899991/76293945312500 := by
  have h00 : Simplexish.hash 42 (-6) 0 = 48298588 := by decide
  have h10 : Simplexish.hash 42 (-5) 0 = 881255832 := by decide
  have h01 : Simplexish.hash 42 (-6) 1 = 2835728469 := by decide
  have h11 : Simplexish.hash 42 (-5) 1 = 2034403861 := by decide
  have f1 : (⌊(-(72/25) : ℚ) * 2⌋ : ℤ) = -6 := by norm_num
  have f2 : (⌊(54/125 : ℚ) * 2⌋ : ℤ) = 0 := by norm_num
  simp only [Simplexish.noise, Simplexish.rand, f1, f2, Int.floor_intCast]
  push_cast
  norm_num [h00, h10, h01, h11]

lemma noiseC4f4 : Simplexish.noise 42 (-(72/25)) (54/125) 4 = 62205166938807/305175781250000 := by
  have h00 : Simplexish.hash 42 (-12) 1 = 3029708412 := by decide
  have h10 : Simplexish.hash 42 (-11) 1 = 731725232 := by decide
  have h01 : Simplexish.hash 42 (-12) 2 = 4253550327 := by decide
  have h11 : Simplexish.hash 42 (-11) 2 = 3476891663 := by decide
  have f1 : (⌊(-(72/25) : ℚ) * 4⌋ : ℤ) = -12 := by norm_num
  have f2 : (⌊(54/125 : ℚ) * 4⌋ : ℤ) = 1 := by norm_num
  simp only [Simplexish.noise, Simplexish.rand, f1, f2, Int.floor_intCast]
  push_cast
  norm_num [h00, h10, h01, h11]

lemma noiseC4f8 : Simplexish.noise 42 (-(72/25)) (54/125) 8 = 150047714038027/305175781250000 := by
  have h00 : Simplexish.hash 42 (-24) 3 = 3211814631 := by decide
  have h10 : Simplexish.hash 42 (-23) 3 = 1215016604 := by decide
  have h01 : Simplexish.hash 42 (-24) 4 = 3739618247 := by decide
  have h11 : Simplexish.hash 42 (-23) 4 = 1862092704 := by decide
  have f1 : (⌊(-(72/25) : ℚ) * 8⌋ : ℤ) = -24 := by norm_num
  have f2 : (⌊(54/125 : ℚ) * 8⌋ : ℤ) = 3 := by norm_num
  simp only [Simplexish.noise, Simplexish.rand, f1, f2, Int.floor_intCast]
  push_cast
  norm_num [h00, h10, h01, h11]

lemma noiseC4f16 : Simplexish.noise 42 (-(72/25)) (54/125) 16 = 133386352185009/305175781250000 := by
  have h00 : Simplexish.hash 42 (-47) 6 = 2095439255 := by decide
  have h10 : Simplexish.hash 42 (-46) 6 = 4074793681 := by decide
  have h01 : Simplexish.hash 42 (-47) 7 = 168451681 := by decide
  have h11 : Simplexish.hash 42 (-46) 7 = 2199744434 := by decide
  have f1 : (⌊(-(72/25) : ℚ) * 16⌋ : ℤ) = -47 := by norm_num
  have f2 : (⌊(54/125 : ℚ) * 16⌋ : ℤ) = 6 := by norm_num
  simp only [Simplexish.noise, Simplexish.rand, f1, f2, Int.floor_intCast]
  push_cast
  norm_num [h00, h10, h01, h11]

/-- Exact value of the base relief fractal at the grid vertex
`(x, z) = (-160, 24)` for the engine's default seed 42 (about `0.517`,
i.e. above `0.5`, so the vertex has positive base relief). -/
lemma fractalC4 :
    Simplexish.fractal 42 (-(72/25)) (54/125) 5 2 (48/100) 1 =
      115512916157245196149/223407287597656250000 := by
  simp only [Simplexish.fractal, fractalLoop_five]
  norm_num [noiseC4f1, noiseC4f2, noiseC4f4, noiseC4f8, noiseC4f16, max_def]

lemma rand00 : Simplexish.rand 42 0 0 = 1367/5000 := by
  have h : Simplexish.hash 42 0 0 = 1973702734 := by decide
  simp only [Simplexish.rand, Int.floor_zero]
  norm_num [h]

lemma noise00 (seed : ℤ) (f : ℚ) :
    Simplexish.noise seed 0 0 f = Simplexish.rand seed 0 0 := by
  simp [Simplexish.noise]

/-- Exact value of the base relief fractal at the origin for seed 42. -/
lemma fractal00_five : Simplexish.fractal 42 0 0 5 2 (48/100) 1 = 1367/5000 := by
  simp only [Simplexish.fractal, fractalLoop_five, noise00, rand00]
  norm_num [max_def]

/-- **C4 counterexample.** At the actual grid vertex
`(x, z) = (gridX 0, gridZ 132) = (-160, 24)` and the engine's default
seed 42, the base fractal exceeds `0.5`, so the empty-bundle height is
positive and the cliff curve `h^1.12` (step 3 of the synthesis) changes
it: the output height does **not** equal
`(fractal(x*s1, z*s1, 5, 2.0, 0.48, 1.0) - 0.5) * 14 * exaggeration`. -/
theorem heightAt_empty_cliff_counterexample :
    TerrainEngine.gridX 0 = -160 ∧ TerrainEngine.gridZ 132 = 24 ∧
    TerrainEngine.heightAt 42 (-160) 24
        ⟨[], [], ⟨fun _ => ⟨0, 0, 0⟩, 1.35⟩⟩ ≠
      (((Simplexish.fractal 42 ((-160) * (18/1000)) (24 * (18/1000)) 5 2 (48/100) 1 : ℚ) : ℝ)
          - 0.5) * 14 * 1.35 := by
  refine ⟨by norm_num [TerrainEngine.gridX], by norm_num [TerrainEngine.gridZ], ?_⟩
  have hargx : ((-160 : ℚ)) * (18/1000) = -(72/25) := by norm_num
  have hargz : ((24 : ℚ)) * (18/1000) = 54/125 := by norm_num
  have hfr : Simplexish.fractal 42 ((-160 : ℚ) * (18/1000)) ((24 : ℚ) * (18/1000)) 5 2 (48/100) 1 =
      115512916157245196149/223407287597656250000 := by
    rw [hargx, hargz, fractalC4]
  simp only [TerrainEngine.heightAt, List.foldl_nil]
  rw [hfr]
  have hc0 : (0:ℝ) <
      (((115512916157245196149/223407287597656250000 : ℚ) : ℝ) - 0.5) * 14 * 1.35 := by
    push_cast
    norm_num
  have hc1 :
      (((115512916157245196149/223407287597656250000 : ℚ) : ℝ) - 0.5) * 14 * 1.35 < 1 := by
    push_cast
    norm_num
  rw [if_pos hc0]
  have hlt := Real.rpow_lt_rpow_of_exponent_gt hc0 hc1 (by norm_num : (1:ℝ) < 1.12)
  rw [Real.rpow_one] at hlt
  exact ne_of_lt hlt

/-- **C4 (amended).** For a Feature Bundle with an empty mapped-location
list, the Height-Field output at every sample equals the cliff curve
applied to the pure base fractal relief — `h0 = (fractal(x*0.018,
z*0.018, 5, 2.0, 0.48, 1.0) - 0.5) * 14 * exaggeration`, then `h0^1.12`
when `h0 > 0` — with no influence-field contribution at any sample; and
the Point-Cloud silhouette field short-circuits at `totalWeight ≤ 0` to
`(0, 0)` at every sample rather than dividing by zero. -/
theorem heightAt_empty_base_noise (seed : ℤ) (x z : ℚ) (theta phi : ℝ)
    (mcs : List FeatureMapping.MappedConnection) (gf : FeatureMapping.GlobalFeatures) :
    TerrainEngine.heightAt seed x z ⟨[], mcs, gf⟩ =
      (if 0 < (((Simplexish.fractal seed (x * (18/1000)) (z * (18/1000)) 5 2 (48/100) 1 : ℚ) : ℝ)
            - 0.5) * 14 * gf.exaggeration then
        ((((Simplexish.fractal seed (x * (18/1000)) (z * (18/1000)) 5 2 (48/100) 1 : ℚ) : ℝ)
            - 0.5) * 14 * gf.exaggeration) ^ (1.12 : ℝ)
      else
        (((Simplexish.fractal seed (x * (18/1000)) (z * (18/1000)) 5 2 (48/100) 1 : ℚ) : ℝ)
            - 0.5) * 14 * gf.exaggeration) ∧
    PointCloudSphere.sampleSilhouetteField
        (PointCloudSphere.precomputeSphericalFeatures ⟨[], mcs, gf⟩) theta phi = (0, 0) := by
  constructor
  · simp only [TerrainEngine.heightAt, List.foldl_nil]
  · simp [PointCloudSphere.sampleSilhouetteField, PointCloudSphere.precomputeSphericalFeatures]

/-- **C5.** Within one grid sample the height accumulation is a
sequential fold of the per-location step (amplitude·shape·falloff, then
elevation bias, then the erosion lerp) over the mapped locations in
Feature Bundle order, followed by the cliff curve; and this fold is not
commutative: at sample `(0, 0)` with seed 42, the two overlapping
locations `c5LocA` and `c5LocB` produce different heights when their
order in the bundle is swapped, so implementations must iterate in
bundle order to reproduce identical output. -/
theorem heightAt_order_dependent :
    (∀ (seed : ℤ) (x z : ℚ) (f : FeatureMapping.FeatureBundle),
      TerrainEngine.heightAt seed x z f =
        (if 0 < f.mapped.foldl
            (TerrainEngine.locStep seed x z f.global.exaggeration
              (Simplexish.fractal seed (x * (18/1000)) (z * (18/1000)) 5 2 (48/100) 1))
            ((((Simplexish.fractal seed (x * (18/1000)) (z * (18/1000)) 5 2 (48/100) 1 : ℚ) : ℝ)
                - 0.5) * 14 * f.global.exaggeration) then
          (f.mapped.foldl
            (TerrainEngine.locStep seed x z f.global.exaggeration
              (Simplexish.fractal seed (x * (18/1000)) (z * (18/1000)) 5 2 (48/100) 1))
            ((((Simplexish.fractal seed (x * (18/1000)) (z * (18/1000)) 5 2 (48/100) 1 : ℚ) : ℝ)
                - 0.5) * 14 * f.global.exaggeration)) ^ (1.12 : ℝ)
        else
          f.mapped.foldl
            (TerrainEngine.locStep seed x z f.global.exaggeration
              (Simplexish.fractal seed (x * (18/1000)) (z * (18/1000)) 5 2 (48/100) 1))
            ((((Simplexish.fractal seed (x * (18/1000)) (z * (18/1000)) 5 2 (48/100) 1 : ℚ) : ℝ)
                - 0.5) * 14 * f.global.exaggeration))) ∧
    TerrainEngine.heightAt 42 0 0 ⟨[c5LocA, c5LocB], [], ⟨fun _ => ⟨0, 0, 0⟩, 1.35⟩⟩ ≠
      TerrainEngine.heightAt 42 0 0 ⟨[c5LocB, c5LocA], [], ⟨fun _ => ⟨0, 0, 0⟩, 1.35⟩⟩ := by
  constructor
  · intro seed x z f
    rfl
  · have hb : Simplexish.fractal 42 (0 * (18/1000) : ℚ) (0 * (18/1000) : ℚ) 5 2 (48/100) 1 =
        1367/5000 := by
      rw [show ((0 : ℚ) * (18/1000)) = 0 by norm_num]
      exact fractal00_five
    simp only [TerrainEngine.heightAt, hb, List.foldl_cons, List.foldl_nil]
    norm_num [TerrainEngine.locStep, c5LocA, c5LocB, lerpR, Real.sqrt_zero, Real.one_rpow]

/-! ## Point-cloud determinism and jitter claims -/

/-- **C6 counterexample.** `PointCloudSphere.generate` calls
`Math.random()` (for base point sizes, and for cluster jitter, color and
size), so it is not a deterministic function of the Feature Bundle: with
the same (empty) bundle, two runs whose ambient random streams are
constantly `0` and constantly `1/2` produce different size buffers
(`0.35` vs `0.575` at the first base point). -/
theorem generate_sizes_depend_on_rng :
    (PointCloudSphere.generate envRand0 emptyBundle).sizes ≠
      (PointCloudSphere.generate envRandHalf emptyBundle).sizes := by
  intro h
  have h0 := congrArg (fun l : List ℝ => l[0]?) h
  simp only [PointCloudSphere.generate, PointCloudSphere.clusterLayer,
    PointCloudSphere.precomputeSphericalFeatures, emptyBundle, List.map_nil,
    List.enum_nil, List.foldl_nil, List.append_nil, List.getElem?_map] at h0
  rw [List.getElem?_range (by norm_num [PointCloudSphere.pointCount] : (0:ℕ) < PointCloudSphere.pointCount)] at h0
  simp only [Option.map_some', Option.some.injEq, envRand0, envRandHalf] at h0
  norm_num at h0

/-- **C6 (amended).** The base Fibonacci layer's positions and colors
are a deterministic function of the Feature Bundle — they are identical
across runs with different ambient environments (no `Math.random()` flows
into them); the size buffer and the per-location cluster layer do consume
`Math.random()` and are not deterministic (see the counterexample). -/
theorem generate_base_layer_deterministic (e₁ e₂ : Env) (f : FeatureMapping.FeatureBundle) :
    (PointCloudSphere.generate e₁ f).positions.take PointCloudSphere.pointCount =
      (PointCloudSphere.generate e₂ f).positions.take PointCloudSphere.pointCount ∧
    (PointCloudSphere.generate e₁ f).colors.take PointCloudSphere.pointCount =
      (PointCloudSphere.generate e₂ f).colors.take PointCloudSphere.pointCount := by
  have hlen : ∀ (g : ℕ → Vec3 × Color3) (pr : Vec3 × Color3 → Vec3),
      (((List.range PointCloudSphere.pointCount).map g).map pr).length =
        PointCloudSphere.pointCount := by
    intro g pr
    simp
  constructor
  · simp only [PointCloudSphere.generate]
    rw [List.take_left' (by simp), List.take_left' (by simp)]
  · simp only [PointCloudSphere.generate]
    rw [List.take_left' (by simp), List.take_left' (by simp)]

/-- Any sequence of `update` calls leaves the stored base-position copy
untouched. -/
lemma updates_preserve_base (ts : List ℝ) (g : PointCloudSphere.PointsGeom) :
    (ts.foldl PointCloudSphere.update g).basePositions = g.basePositions := by
  induction ts generalizing g with
  | nil => rfl
  | cons t ts ih => exact (ih (PointCloudSphere.update g t)).trans rfl

/-- **C9.** The per-frame jitter pass computes every output position
purely from the stored read-only copy of the originally synthesized base
positions and the time argument: after any sequence of prior `update`
calls, `update` at time `t` produces the same position buffer as `update`
at time `t` immediately after `generate` (no drift accumulates), and
`generate` stores the base copy equal to the freshly written positions. -/
theorem update_no_drift (e : Env) (f : FeatureMapping.FeatureBundle)
    (ts : List ℝ) (t : ℝ) :
    (PointCloudSphere.update
        (ts.foldl PointCloudSphere.update (PointCloudSphere.generatePoints e f)) t).arr =
      (PointCloudSphere.update (PointCloudSphere.generatePoints e f) t).arr ∧
    (PointCloudSphere.generatePoints e f).basePositions =
      (PointCloudSphere.generatePoints e f).arr := by
  constructor
  · simp only [PointCloudSphere.update, updates_preserve_base]
  · rfl

/-! ## Longitude wrap of the silhouette field (C10) -/

/-- After a `+2π` shift of the sample longitude, the singly-wrapped theta
delta has the same square, provided the unshifted delta is within `π`. -/
lemma wrap_sq_shift_pos (theta thetaF : ℝ) (h : |theta - thetaF| ≤ Real.pi) :
    (if Real.pi < |theta + 2 * Real.pi - thetaF| then
        2 * Real.pi - |theta + 2 * Real.pi - thetaF|
      else |theta + 2 * Real.pi - thetaF|) *
      (if Real.pi < |theta + 2 * Real.pi - thetaF| then
        2 * Real.pi - |theta + 2 * Real.pi - thetaF|
      else |theta + 2 * Real.pi - thetaF|) =
    (if Real.pi < |theta - thetaF| then 2 * Real.pi - |theta - thetaF|
      else |theta - thetaF|) *
      (if Real.pi < |theta - thetaF| then 2 * Real.pi - |theta - thetaF|
        else |theta - thetaF|) := by
  obtain ⟨hlo, hhi⟩ := abs_le.mp h
  rw [if_neg (not_lt.mpr h)]
  have habs : |theta + 2 * Real.pi - thetaF| = theta - thetaF + 2 * Real.pi := by
    rw [abs_of_nonneg (by have := Real.pi_pos; linarith)]
    ring
  rcases eq_or_lt_of_le hlo with heq | hlt
  · rw [habs, if_neg (by rw [← heq]; simp [not_lt]; linarith)]
    rw [← heq]
    have : |(-Real.pi : ℝ)| = Real.pi := by
      rw [abs_neg, abs_of_nonneg Real.pi_pos.le]
    nlinarith [this]
  · rw [habs, if_pos (by linarith)]
    rw [abs_mul_abs_self]
    ring
  -- the remaining side condition of `rw` branches is discharged above

/-- Same statement for a `-2π` shift. -/
lemma wrap_sq_shift_neg (theta thetaF : ℝ) (h : |theta - thetaF| ≤ Real.pi) :
    (if Real.pi < |theta - 2 * Real.pi - thetaF| then
        2 * Real.pi - |theta - 2 * Real.pi - thetaF|
      else |theta - 2 * Real.pi - thetaF|) *
      (if Real.pi < |theta - 2 * Real.pi - thetaF| then
        2 * Real.pi - |theta - 2 * Real.pi - thetaF|
      else |theta - 2 * Real.pi - thetaF|) =
    (if Real.pi < |theta - thetaF| then 2 * Real.pi - |theta - thetaF|
      else |theta - thetaF|) *
      (if Real.pi < |theta - thetaF| then 2 * Real.pi - |theta - thetaF|
        else |theta - thetaF|) := by
  obtain ⟨hlo, hhi⟩ := abs_le.mp h
  rw [if_neg (not_lt.mpr h)]
  have habs : |theta - 2 * Real.pi - thetaF| = 2 * Real.pi - (theta - thetaF) := by
    rw [abs_of_nonpos (by have := Real.pi_pos; linarith)]
    ring
  rcases eq_or_lt_of_le hhi with heq | hlt
  · rw [habs, heq, if_neg (by simp [not_lt]; linarith)]
    have : |(Real.pi : ℝ)| = Real.pi := abs_of_nonneg Real.pi_pos.le
    nlinarith [this, heq]
  · rw [habs, if_pos (by linarith)]
    rw [abs_mul_abs_self]
    ring

/-- Fold congruence: if the two accumulation steps agree on every list
element, the folds agree. -/
lemma foldl_congr_mem {α β : Type} (l : List α) (f g : β → α → β) (b : β)
    (h : ∀ a ∈ l, ∀ acc, f acc a = g acc a) : l.foldl f b = l.foldl g b := by
  induction l generalizing b with
  | nil => rfl
  | cons x xs ih =>
    simp only [List.foldl_cons]
    rw [h x (by simp)]
    exact ih _ (fun a ha acc => h a (by simp [ha]) acc)

/-- A `+2π` longitude shift leaves one accumulation step unchanged when
the unshifted delta is within `π`. -/
lemma silhouetteAcc_shift_pos (theta phi : ℝ) (acc : ℝ × ℝ × ℝ)
    (sf : PointCloudSphere.SphericalFeature) (h : |theta - sf.theta| ≤ Real.pi) :
    PointCloudSphere.silhouetteAcc (theta + 2 * Real.pi) phi acc sf =
      PointCloudSphere.silhouetteAcc theta phi acc sf := by
  simp only [PointCloudSphere.silhouetteAcc]
  rw [wrap_sq_shift_pos theta sf.theta h]

/-- A `-2π` longitude shift leaves one accumulation step unchanged when
the unshifted delta is within `π`. -/
lemma silhouetteAcc_shift_neg (theta phi : ℝ) (acc : ℝ × ℝ × ℝ)
    (sf : PointCloudSphere.SphericalFeature) (h : |theta - sf.theta| ≤ Real.pi) :
    PointCloudSphere.silhouetteAcc (theta - 2 * Real.pi) phi acc sf =
      PointCloudSphere.silhouetteAcc theta phi acc sf := by
  simp only [PointCloudSphere.silhouetteAcc]
  rw [wrap_sq_shift_neg theta sf.theta h]

/-- **C10 (amended).** The silhouette field is invariant under a single
`±2π` longitude shift of the sample provided every feature's (unshifted)
theta delta is within `π` — the single `0/2π` wrap handles one period —
but it is **not** `2π·k`-periodic for arbitrary integers `k` (see the
counterexample at `k = 2`): base-layer Fibonacci points, whose theta
grows without bound, are not reduced modulo `2π` and need not receive the
influence their wrapped angle would. -/
theorem silhouette_shift_by_one_period (f : FeatureMapping.FeatureBundle)
    (theta phi : ℝ)
    (h : ∀ m ∈ f.mapped, |theta - (PointCloudSphere.posToSpherical m.pos).1| ≤ Real.pi) :
    PointCloudSphere.sampleSilhouetteField
        (PointCloudSphere.precomputeSphericalFeatures f) (theta + 2 * Real.pi) phi =
      PointCloudSphere.sampleSilhouetteField
        (PointCloudSphere.precomputeSphericalFeatures f) theta phi ∧
    PointCloudSphere.sampleSilhouetteField
        (PointCloudSphere.precomputeSphericalFeatures f) (theta - 2 * Real.pi) phi =
      PointCloudSphere.sampleSilhouetteField
        (PointCloudSphere.precomputeSphericalFeatures f) theta phi := by
  have hsf : ∀ sf ∈ PointCloudSphere.precomputeSphericalFeatures f,
      |theta - sf.theta| ≤ Real.pi := by
    intro sf hmem
    simp only [PointCloudSphere.precomputeSphericalFeatures, List.mem_map] at hmem
    obtain ⟨m, hm, rfl⟩ := hmem
    exact h m hm
  constructor
  · unfold PointCloudSphere.sampleSilhouetteField
    rw [foldl_congr_mem _ _ _ _
      (fun sf hmem acc => silhouetteAcc_shift_pos theta phi acc sf (hsf sf hmem))]
  · unfold PointCloudSphere.sampleSilhouetteField
    rw [foldl_congr_mem _ _ _ _
      (fun sf hmem acc => silhouetteAcc_shift_neg theta phi acc sf (hsf sf hmem))]

/-- **C10 witness.** The one-period-shift theorem applied to the empty
bundle at `theta = 0`, `phi = 0` (its hypothesis is vacuous there). -/
theorem silhouette_shift_by_one_period_witness :
    (∀ m ∈ emptyBundle.mapped,
      |(0:ℝ) - (PointCloudSphere.posToSpherical m.pos).1| ≤ Real.pi) ∧
    PointCloudSphere.sampleSilhouetteField
        (PointCloudSphere.precomputeSphericalFeatures emptyBundle) (0 + 2 * Real.pi) 0 =
      PointCloudSphere.sampleSilhouetteField
        (PointCloudSphere.precomputeSphericalFeatures emptyBundle) 0 0 :=
  ⟨by simp [emptyBundle], (silhouette_shift_by_one_period emptyBundle 0 0 (by simp [emptyBundle])).1⟩

/-- **C10 counterexample.** The silhouette field is not `2π·k`-periodic
in longitude for every integer `k`: for the one-feature bundle whose
feature sits at `theta = 0`, sampling at `theta = 0 + 2π·2` (the wrap
test handles only one period, leaving an angular distance of `2π`)
yields `(0, 0)` while sampling at `theta = 0` yields the fully clamped
`(2, 2)`. -/
theorem silhouette_not_periodic_counterexample :
    PointCloudSphere.sampleSilhouetteField
        (PointCloudSphere.precomputeSphericalFeatures c10Bundle)
        (0 + 2 * Real.pi * ((2:ℤ) : ℝ)) (0.2 * Real.pi) ≠
      PointCloudSphere.sampleSilhouetteField
        (PointCloudSphere.precomputeSphericalFeatures c10Bundle)
        0 (0.2 * Real.pi) := by
  have hπ3 := Real.pi_gt_three
  have hπ0 := Real.pi_pos
  have hpre : PointCloudSphere.precomputeSphericalFeatures c10Bundle =
      [⟨c10Loc, 0, 0.2 * Real.pi, 35, 1⟩] := by
    simp only [PointCloudSphere.precomputeSphericalFeatures, c10Bundle, c10Loc,
      PointCloudSphere.posToSpherical, List.map_cons, List.map_nil]
    norm_num [abs_of_nonneg]
  rw [hpre]
  have habs4 : |(0:ℝ) + 2 * Real.pi * ((2:ℤ) : ℝ) - 0| = 4 * Real.pi := by
    push_cast
    rw [abs_of_nonneg (by linarith)]
    ring
  have hL : PointCloudSphere.sampleSilhouetteField
      [⟨c10Loc, 0, 0.2 * Real.pi, 35, 1⟩] (0 + 2 * Real.pi * ((2:ℤ) : ℝ)) (0.2 * Real.pi) =
      (0, 0) := by
    simp only [PointCloudSphere.sampleSilhouetteField, PointCloudSphere.silhouetteAcc,
      List.foldl_cons, List.foldl_nil, habs4, sub_self, abs_zero]
    rw [if_pos (by linarith : Real.pi < 4 * Real.pi)]
    have hsq : (2 * Real.pi - 4 * Real.pi) * (2 * Real.pi - 4 * Real.pi) + (0:ℝ) * 0 =
        (2 * Real.pi) ^ 2 := by ring
    rw [hsq, Real.sqrt_sq (by linarith)]
    rw [if_neg (by push_neg; nlinarith : ¬ (2 * Real.pi < 0.9))]
    norm_num
  have hR : PointCloudSphere.sampleSilhouetteField
      [⟨c10Loc, 0, 0.2 * Real.pi, 35, 1⟩] 0 (0.2 * Real.pi) = (2, 2) := by
    simp only [PointCloudSphere.sampleSilhouetteField, PointCloudSphere.silhouetteAcc,
      List.foldl_cons, List.foldl_nil, sub_self, abs_zero]
    rw [if_neg (not_lt.mpr hπ0.le)]
    have hsq : (0:ℝ) * 0 + 0 * 0 = 0 := by ring
    rw [hsq, Real.sqrt_zero]
    rw [if_pos (by norm_num : (0:ℝ) < 0.9)]
    norm_num [clampR, min_def, max_def]
  rw [hL, hR]
  intro h
  rw [Prod.ext_iff] at h
  norm_num at h

/-! ## Coefficient range invariants (C8) -/

/-- Hub terrain coefficients stay in the output bands of their remaps,
and the elevation bias in the signed-sum range of the clamped signals,
for arbitrary (even out-of-range) raw signals. -/
lemma terrain_bounds (loc : MemoryLocation) :
    (6 ≤ (FeatureMapping.terrainFromLocation loc).amplitude ∧
      (FeatureMapping.terrainFromLocation loc).amplitude ≤ 22) ∧
    (0.18 ≤ (FeatureMapping.terrainFromLocation loc).roughness ∧
      (FeatureMapping.terrainFromLocation loc).roughness ≤ 1.1) ∧
    (0.12 ≤ (FeatureMapping.terrainFromLocation loc).erosion ∧
      (FeatureMapping.terrainFromLocation loc).erosion ≤ 0.9) ∧
    (0.05 ≤ (FeatureMapping.terrainFromLocation loc).ridgeFactor ∧
      (FeatureMapping.terrainFromLocation loc).ridgeFactor ≤ 0.95) ∧
    (-10 ≤ (FeatureMapping.terrainFromLocation loc).elevationBias ∧
      (FeatureMapping.terrainFromLocation loc).elevationBias ≤ 42) := by
  refine ⟨remap_mem _ _ _ (by norm_num), remap_mem _ _ _ (by norm_num),
    remap_mem _ _ _ (by norm_num), remap_mem _ _ _ (by norm_num), ?_⟩
  have hs0 := clamp01_nonneg (loc.significance : ℝ)
  have hs1 := clamp01_le_one (loc.significance : ℝ)
  have hi0 := clamp01_nonneg (loc.intensity : ℝ)
  have hi1 := clamp01_le_one (loc.intensity : ℝ)
  have hv := clampR_mem (loc.valence : ℝ) (by norm_num : (-1:ℝ) ≤ 1)
  constructor <;> · simp only [FeatureMapping.terrainFromLocation]; nlinarith [hv.1, hv.2]

/-- The document-kind modifier table (over all four kinds) keeps its
multiplicative factors in fixed bands. -/
lemma docmod_mul_bounds (doc : MemoryDocument) :
    (0.85 ≤ (FeatureMapping.modFromDocument (some doc)).ampMul ∧
      (FeatureMapping.modFromDocument (some doc)).ampMul ≤ 1.25) ∧
    (0.85 ≤ (FeatureMapping.modFromDocument (some doc)).roughMul ∧
      (FeatureMapping.modFromDocument (some doc)).roughMul ≤ 1.25) ∧
    (0.9 ≤ (FeatureMapping.modFromDocument (some doc)).ridgeMul ∧
      (FeatureMapping.modFromDocument (some doc)).ridgeMul ≤ 1.15) := by
  rcases doc with ⟨ty, c, d, s, lg⟩
  cases ty <;> norm_num [FeatureMapping.modFromDocument]

/-- The additive document bias is within `[-6, 6]` when the document's
sentiment is within its documented `[-1, 1]` range. -/
lemma docmod_biasAdd_bound (doc : MemoryDocument)
    (h : -1 ≤ doc.sentiment.getD 0 ∧ doc.sentiment.getD 0 ≤ 1) :
    -6 ≤ (FeatureMapping.modFromDocument (some doc)).biasAdd ∧
      (FeatureMapping.modFromDocument (some doc)).biasAdd ≤ 6 := by
  rcases doc with ⟨ty, c, d, s, lg⟩
  have h1 : (-1:ℝ) ≤ ((s.getD 0 : ℚ) : ℝ) := by exact_mod_cast h.1
  have h2 : ((s.getD 0 : ℚ) : ℝ) ≤ 1 := by exact_mod_cast h.2
  cases ty <;> simp only [FeatureMapping.modFromDocument] <;> constructor <;>
    nlinarith [h1, h2]

/-- Every element of the mapped list is either a hub carrying the
terrain coefficients of its location, or a memory-event child carrying
the hub coefficients perturbed by the document-kind modifier. -/
lemma mem_mapped_structure (env : Env) (data : JourneyData)
    (m : FeatureMapping.MappedLocation)
    (hm : m ∈ (FeatureMapping.mapJourneyToFeatures env data).mapped) :
    ∃ loc ∈ data.locations,
      (m.parentLocationId = none ∧
        m.elevationBias = (FeatureMapping.terrainFromLocation loc).elevationBias ∧
        m.amplitude = (FeatureMapping.terrainFromLocation loc).amplitude ∧
        m.roughness = (FeatureMapping.terrainFromLocation loc).roughness ∧
        m.erosion = (FeatureMapping.terrainFromLocation loc).erosion ∧
        m.ridgeFactor = (FeatureMapping.terrainFromLocation loc).ridgeFactor) ∨
      (∃ doc ∈ loc.memories,
        m.parentLocationId = some loc.id ∧
        m.elevationBias = (FeatureMapping.terrainFromLocation loc).elevationBias +
          (FeatureMapping.modFromDocument (some doc)).biasAdd ∧
        m.amplitude = (FeatureMapping.terrainFromLocation loc).amplitude *
          (FeatureMapping.modFromDocument (some doc)).ampMul ∧
        m.roughness = clampR ((FeatureMapping.terrainFromLocation loc).roughness *
          (FeatureMapping.modFromDocument (some doc)).roughMul) 0.05 1.5 ∧
        m.erosion = (FeatureMapping.terrainFromLocation loc).erosion ∧
        m.ridgeFactor = clampR ((FeatureMapping.terrainFromLocation loc).ridgeFactor *
          (FeatureMapping.modFromDocument (some doc)).ridgeMul) 0.01 1.5) := by
  simp only [FeatureMapping.mapJourneyToFeatures] at hm
  rw [List.mem_flatMap] at hm
  obtain ⟨loc, hloc, hmem⟩ := hm
  refine ⟨loc, hloc, ?_⟩
  simp only [FeatureMapping.hubAndChildren] at hmem
  rcases List.mem_cons.mp hmem with rfl | hchild
  · exact Or.inl ⟨rfl, rfl, rfl, rfl, rfl, rfl⟩
  · rw [List.mem_map] at hchild
    obtain ⟨⟨idx, doc⟩, hd, rfl⟩ := hchild
    obtain ⟨hlen, hget⟩ := List.mem_enum hd
    exact Or.inr ⟨doc, by rw [hget]; exact List.getElem_mem hlen,
      rfl, rfl, rfl, rfl, rfl, rfl⟩

/-- **C8 (amended).** For every input, every mapped node's terrain
coefficients lie in fixed documented ranges: hubs exactly in their remap
output bands (`amplitude ∈ [6,22]`, `roughness ∈ [0.18,1.1]`,
`ridgeFactor ∈ [0.05,0.95]`, `elevationBias ∈ [-10,42]`); children in
the ranges obtained from the hub bands and the modifier table
(`amplitude ∈ [5.1,27.5]`; `roughness`/`ridgeFactor` inside their
explicit clamp bounds `[0.05,1.5]` / `[0.01,1.5]`; `erosion ∈
[0.12,0.9]`).  The one exception to the claim: a child's
`elevationBias` is bounded (by `[-16,48]`) only when every document
sentiment is within its documented `[-1,1]` range, because `sentiment`
is **not** clamped before the document bias is added (see the
counterexample). -/
theorem mapped_coefficients_in_range (env : Env) (data : JourneyData) :
    ((FeatureMapping.mapJourneyToFeatures env data).mapped.Forall fun m =>
      (5.1 ≤ m.amplitude ∧ m.amplitude ≤ 27.5) ∧
      (0.05 ≤ m.roughness ∧ m.roughness ≤ 1.5) ∧
      (0.12 ≤ m.erosion ∧ m.erosion ≤ 0.9) ∧
      (0.01 ≤ m.ridgeFactor ∧ m.ridgeFactor ≤ 1.5) ∧
      (m.parentLocationId = none →
        (6 ≤ m.amplitude ∧ m.amplitude ≤ 22) ∧
        (0.18 ≤ m.roughness ∧ m.roughness ≤ 1.1) ∧
        (0.05 ≤ m.ridgeFactor ∧ m.ridgeFactor ≤ 0.95) ∧
        (-10 ≤ m.elevationBias ∧ m.elevationBias ≤ 42))) ∧
    ((data.locations.Forall fun loc => loc.memories.Forall fun doc =>
        -1 ≤ doc.sentiment.getD 0 ∧ doc.sentiment.getD 0 ≤ 1) →
      (FeatureMapping.mapJourneyToFeatures env data).mapped.Forall fun m =>
        -16 ≤ m.elevationBias ∧ m.elevationBias ≤ 48) := by
  constructor
  · rw [List.forall_iff_forall_mem]
    intro m hm
    obtain ⟨loc, hloc, hcase⟩ := mem_mapped_structure env data m hm
    obtain ⟨⟨ha1, ha2⟩, ⟨hr1, hr2⟩, ⟨he1, he2⟩, ⟨hg1, hg2⟩, hb1, hb2⟩ := terrain_bounds loc
    rcases hcase with ⟨hp, hbe, ham, hro, her, hrd⟩ |
      ⟨doc, hdoc, hp, hbe, ham, hro, her, hrd⟩
    · rw [ham, hro, her, hrd]
      exact ⟨⟨by linarith, by linarith⟩, ⟨by linarith, by linarith⟩,
        ⟨he1, he2⟩, ⟨by linarith, by linarith⟩,
        fun _ => ⟨⟨ha1, ha2⟩, ⟨hr1, hr2⟩, ⟨hg1, hg2⟩, by rw [hbe]; exact ⟨hb1, hb2⟩⟩⟩
    · obtain ⟨⟨hm1, hm2⟩, _, _⟩ := docmod_mul_bounds doc
      have hrb := clampR_mem ((FeatureMapping.terrainFromLocation loc).roughness *
        (FeatureMapping.modFromDocument (some doc)).roughMul) (by norm_num : (0.05:ℝ) ≤ 1.5)
      have hgb := clampR_mem ((FeatureMapping.terrainFromLocation loc).ridgeFactor *
        (FeatureMapping.modFromDocument (some doc)).ridgeMul) (by norm_num : (0.01:ℝ) ≤ 1.5)
      refine ⟨?_, ?_, ?_, ?_, ?_⟩
      · rw [ham]
        constructor
        · nlinarith
        · nlinarith
      · rw [hro]; exact hrb
      · rw [her]; exact ⟨he1, he2⟩
      · rw [hrd]; exact hgb
      · intro hnone
        rw [hp] at hnone
        cases hnone
  · intro hsent
    rw [List.forall_iff_forall_mem] at hsent ⊢
    intro m hm
    obtain ⟨loc, hloc, hcase⟩ := mem_mapped_structure env data m hm
    obtain ⟨_, _, _, _, hb1, hb2⟩ := terrain_bounds loc
    rcases hcase with ⟨hp, hbe, _, _, _, _⟩ | ⟨doc, hdoc, hp, hbe, _, _, _, _⟩
    · rw [hbe]; exact ⟨by linarith, by linarith⟩
    · have hdball := (List.forall_iff_forall_mem.mp (hsent loc hloc)) doc hdoc
      have hba := docmod_biasAdd_bound doc hdball
      rw [hbe]
      exact ⟨by linarith [hba.1], by linarith [hba.2]⟩

/-- **C8 counterexample.** `sentiment` is not clamped before the
document-kind bias is applied: for the dataset with one all-zero
location carrying a photo document with `sentiment = 100`, the
memory-event child's `elevationBias` is `0 + 100·6 = 600`, far outside
the `[-16, 48]` range reachable from clamped signals plus the
document-kind bias — so not every coefficient stays within its
documented range. -/
theorem child_bias_escapes_range :
    ¬ ((FeatureMapping.mapJourneyToFeatures envRand0 c8Data).mapped.Forall fun m =>
        -16 ≤ m.elevationBias ∧ m.elevationBias ≤ 48) := by
  intro h
  have hmm : (((FeatureMapping.mapJourneyToFeatures envRand0 c8Data).mapped.map
      (fun m => m.elevationBias)))[1]? = some 600 := by
    simp only [FeatureMapping.mapJourneyToFeatures, c8Data, c8Loc, c8Doc,
      FeatureMapping.hubAndChildren, FeatureMapping.modFromDocument,
      FeatureMapping.terrainFromLocation, List.flatMap_cons, List.flatMap_nil,
      List.enum, List.enumFrom, List.map_cons, List.map_nil, List.append_nil]
    norm_num [clamp01, clampR, min_def, max_def]
  rw [List.forall_iff_forall_mem] at h
  have hmem : (600:ℝ) ∈ (FeatureMapping.mapJourneyToFeatures envRand0 c8Data).mapped.map
      (fun m => m.elevationBias) := List.getElem?_mem hmm
  rw [List.mem_map] at hmem
  obtain ⟨m, hm, hbias⟩ := hmem
  have := (h m hm).2
  rw [hbias] at this
  norm_num at this

/-- **C8 witness.** The amended theorem applied to a one-location
dataset whose (empty) document list trivially satisfies the sentiment
hypothesis. -/
theorem mapped_coefficients_in_range_witness :
    (([c3Loc] : List MemoryLocation).Forall fun loc => loc.memories.Forall fun doc =>
        -1 ≤ doc.sentiment.getD 0 ∧ doc.sentiment.getD 0 ≤ 1) ∧
    ((FeatureMapping.mapJourneyToFeatures envRand0 ⟨[c3Loc], []⟩).mapped.Forall fun m =>
        -16 ≤ m.elevationBias ∧ m.elevationBias ≤ 48) :=
  ⟨by simp [List.Forall, c3Loc],
    (mapped_coefficients_in_range envRand0 ⟨[c3Loc], []⟩).2 (by simp [List.Forall, c3Loc])⟩

/-! ## Connection resolution and blending (C7) -/

/-- A `filterMap` keeps exactly the elements whose image is `some`. -/
lemma length_filterMap_filter {α β : Type} (l : List α) (f : α → Option β) :
    (l.filterMap f).length = (l.filter (fun a => (f a).isSome)).length := by
  induction l with
  | nil => rfl
  | cons a l ih =>
    cases hfa : f a <;>
      simp [List.filterMap_cons, List.filter_cons, hfa, ih]

/-- **C7 (amended).** In both revisions, `mapJourneyToFeatures` turns
each connection whose two endpoint ids resolve into exactly one
`MappedConnection` and silently drops each connection with an unresolved
endpoint (the output length is the number of resolvable connections, so
it falls short of the input length by exactly the number of dangling
references).  Every retained connection's weight is defaulted and
clamped to `[0,1]` and its color is the 50/50 blend of the endpoint base
colors.  In the current revision `curvatureY` and `opacity` are remaps
of the weight (`remap(w,0,1,10,30)` and `remap(w,0,1,0.25,0.85)`); in
the second revision only `opacity` is a remap of the weight
(`remap(w,0,1,0.18,0.6)`) while `curvatureY` is the remap of the clamped
midpoint-year gap times `0.6 + weight` — not a function of the weight
alone (see the counterexample). -/
theorem mappedConnections_drop_and_blend (env : Env) (data : JourneyData) :
    ((FeatureMapping.mapJourneyToFeatures env data).mappedConnections.length =
      (data.connections.filter fun c =>
        (FeatureMapping.mappedById
            (FeatureMapping.mapJourneyToFeatures env data).mapped c.from_).isSome &&
        (FeatureMapping.mappedById
            (FeatureMapping.mapJourneyToFeatures env data).mapped c.to_).isSome).length) ∧
    ((FeatureMapping.mapJourneyToFeatures env data).mappedConnections.Forall fun mc =>
      (0 ≤ mc.weight ∧ mc.weight ≤ 1) ∧
      mc.curvatureY = remap mc.weight 0 1 10 30 ∧
      mc.opacity = remap mc.weight 0 1 0.25 0.85 ∧
      mc.color = ⟨(mc.from_.baseColor.r + mc.to_.baseColor.r) / 2,
        (mc.from_.baseColor.g + mc.to_.baseColor.g) / 2,
        (mc.from_.baseColor.b + mc.to_.baseColor.b) / 2⟩) ∧
    ((FeatureMappingV2.mapJourneyToFeatures env data).mappedConnections.length =
      (data.connections.filter fun c =>
        (FeatureMappingV2.byId
            (FeatureMappingV2.mapJourneyToFeatures env data).mapped c.from_).isSome &&
        (FeatureMappingV2.byId
            (FeatureMappingV2.mapJourneyToFeatures env data).mapped c.to_).isSome).length) ∧
    ((FeatureMappingV2.mapJourneyToFeatures env data).mappedConnections.Forall fun mc =>
      (0 ≤ mc.weight ∧ mc.weight ≤ 1) ∧
      mc.opacity = FeatureMappingV2.remap mc.weight 0 1 0.18 0.6 ∧
      (∃ dt : ℝ, 1 ≤ dt ∧
        mc.curvatureY = FeatureMappingV2.remap dt 1 10 3 16 * (0.6 + mc.weight)) ∧
      mc.color = ⟨(mc.from_.baseColor.r + mc.to_.baseColor.r) / 2,
        (mc.from_.baseColor.g + mc.to_.baseColor.g) / 2,
        (mc.from_.baseColor.b + mc.to_.baseColor.b) / 2⟩) := by
  refine ⟨?_, ?_, ?_, ?_⟩
  · simp only [FeatureMapping.mapJourneyToFeatures]
    rw [length_filterMap_filter]
    apply congrArg
    apply List.filter_congr
    intro c _
    cases hf : FeatureMapping.mappedById
        (data.locations.flatMap
          (FeatureMapping.hubAndChildren (FeatureMapping.positionFromData env data.locations)))
        c.from_ <;>
      cases ht : FeatureMapping.mappedById
          (data.locations.flatMap
            (FeatureMapping.hubAndChildren (FeatureMapping.positionFromData env data.locations)))
          c.to_ <;>
      simp [FeatureMapping.connFor, hf, ht]
  · rw [List.forall_iff_forall_mem]
    intro mc hmc
    simp only [FeatureMapping.mapJourneyToFeatures] at hmc
    rw [List.mem_filterMap] at hmc
    obtain ⟨c, _, hfc⟩ := hmc
    rw [FeatureMapping.connFor] at hfc
    cases hf : FeatureMapping.mappedById
        (data.locations.flatMap
          (FeatureMapping.hubAndChildren (FeatureMapping.positionFromData env data.locations)))
        c.from_ <;> rw [hf] at hfc
    · cases hfc
    cases ht : FeatureMapping.mappedById
        (data.locations.flatMap
          (FeatureMapping.hubAndChildren (FeatureMapping.positionFromData env data.locations)))
        c.to_ <;> rw [ht] at hfc
    · cases hfc
    obtain rfl := (Option.some.injEq _ _).mp hfc
    refine ⟨⟨clamp01_nonneg _, clamp01_le_one _⟩, rfl, rfl, ?_⟩
    simp only [Color3.lerp, Color3.mk.injEq]
    refine ⟨by ring, by ring, by ring⟩
  · simp only [FeatureMappingV2.mapJourneyToFeatures]
    rw [length_filterMap_filter]
    apply congrArg
    apply List.filter_congr
    intro c _
    cases hf : FeatureMappingV2.byId
        (data.locations.map
          (FeatureMappingV2.mapLocation (FeatureMappingV2.positionFromData env data.locations)))
        c.from_ <;>
      cases ht : FeatureMappingV2.byId
          (data.locations.map
            (FeatureMappingV2.mapLocation (FeatureMappingV2.positionFromData env data.locations)))
          c.to_ <;>
      simp [FeatureMappingV2.connFor, hf, ht]
  · rw [List.forall_iff_forall_mem]
    intro mc hmc
    simp only [FeatureMappingV2.mapJourneyToFeatures] at hmc
    rw [List.mem_filterMap] at hmc
    obtain ⟨c, _, hfc⟩ := hmc
    rw [FeatureMappingV2.connFor] at hfc
    cases hf : FeatureMappingV2.byId
        (data.locations.map
          (FeatureMappingV2.mapLocation (FeatureMappingV2.positionFromData env data.locations)))
        c.from_ <;> rw [hf] at hfc
    · cases hfc
    cases ht : FeatureMappingV2.byId
        (data.locations.map
          (FeatureMappingV2.mapLocation (FeatureMappingV2.positionFromData env data.locations)))
        c.to_ <;> rw [ht] at hfc
    · cases hfc
    obtain rfl := (Option.some.injEq _ _).mp hfc
    have hw0 : (0:ℝ) ≤ FeatureMappingV2.clamp01 ((c.weight.getD (1/2) : ℚ) : ℝ) :=
      le_max_left 0 _
    have hw1 : FeatureMappingV2.clamp01 ((c.weight.getD (1/2) : ℚ) : ℝ) ≤ 1 :=
      max_le zero_le_one (min_le_left 1 _)
    refine ⟨⟨hw0, hw1⟩, rfl, ?_, ?_⟩
    · refine ⟨_, ?_, rfl⟩
      have : (1:ℤ) ≤ max 1 |(((data.locations.find? (fun l => l.id == c.to_)).map
          (FeatureMappingV2.midpointYear env)).getD 0 -
          ((data.locations.find? (fun l => l.id == c.from_)).map
            (FeatureMappingV2.midpointYear env)).getD 0)| := le_max_left 1 _
      exact_mod_cast this
    · simp only [Color3.lerp, Color3.mk.injEq]
      refine ⟨by ring, by ring, by ring⟩

/-- **C7 counterexample.** In the second revision, `curvatureY` is not a
remap of the (defaulted, clamped) weight: the two datasets `c7Data1` and
`c7Data2` give their single retained connection identical weights, yet
different `curvatureY` values (`16·1.1` vs `(22/3)·1.1`), because
`curvatureY` also depends on the endpoint midpoint-year gap. -/
theorem v2_curvature_depends_on_years :
    ((FeatureMappingV2.mapJourneyToFeatures envRand0 c7Data1).mappedConnections.map
        (fun mc => mc.weight)) =
      ((FeatureMappingV2.mapJourneyToFeatures envRand0 c7Data2).mappedConnections.map
        (fun mc => mc.weight)) ∧
    ((FeatureMappingV2.mapJourneyToFeatures envRand0 c7Data1).mappedConnections.map
        (fun mc => mc.curvatureY)) ≠
      ((FeatureMappingV2.mapJourneyToFeatures envRand0 c7Data2).mappedConnections.map
        (fun mc => mc.curvatureY)) := by
  have haa : (("a" : String) == "a") = true := by decide
  have hbb : (("b" : String) == "b") = true := by decide
  have hba : (("b" : String) == "a") = false := by decide
  have hab : (("a" : String) == "b") = false := by decide
  simp only [FeatureMappingV2.mapJourneyToFeatures, FeatureMappingV2.connFor,
    FeatureMappingV2.byId, FeatureMappingV2.mapLocation, FeatureMappingV2.midpointYear,
    FeatureMapping.midpointYear, c7Data1, c7Data2, c7LocA, c7LocB1, c7LocB2, c7Conn,
    List.map_cons, List.map_nil, List.reverse_cons, List.reverse_nil, List.nil_append,
    List.cons_append, List.find?, List.filterMap_cons, List.filterMap_nil,
    haa, hbb, hba, hab, Option.getD_some, Option.getD_none, Option.map_some']
  refine ⟨trivial, ?_⟩
  intro h
  rw [List.cons.injEq] at h
  have hcy := h.1
  rw [show ((1 ⊔ |(2010:ℤ) - 2000| : ℤ)) = 10 by decide,
    show ((1 ⊔ |(2004:ℤ) - 2000| : ℤ)) = 4 by decide] at hcy
  norm_num [FeatureMappingV2.remap, FeatureMappingV2.clamp01, min_def, max_def] at hcy
